import Mathlib

/-!
# Vibrant Yoga client (`frontend/src/App.js`): session manager, route guard, booking flow,
user dashboard and admin console

A shallow embedding of the React component code of `App.js`.

* Component state (`useState`) is an explicit record; a handler is a function from the
  state before the call to the state after it.
* The outcome of an awaited request is an argument of the handler
  (`Except AxiosError response`), since the backend is an external collaborator.
* Everything a handler does to the outside (HTTP requests, toasts, console output,
  navigation) is appended, in order, to the `log` field of the state.
* `BACKEND_URL` comes from the process environment, so the value of `API` is a parameter
  `api` of every function that builds a URL.
* Every handler of `App.js` wraps its awaited requests in `try`/`catch` and never throws
  again, so each is a total function: a rejection is consumed by the `catch` branch.
* A function that awaits a request and is observed in between is split in two: `...Start`
  up to the `await`, `...Settle` from the outcome on.
-/

namespace VibrantYoga

/-! ## JavaScript values and truthiness -/

/-- A JavaScript value as far as `App.js` inspects one: the primitives, and any
object or array (kept as its JSON text), which is always truthy. -/
inductive JsVal where
  | undefined
  | null
  | bool (b : Bool)
  | num (n : Int)
  | str (s : String)
  | object (json : String)
  deriving DecidableEq, Repr

namespace JsVal

/-- JavaScript truthiness (`!!v`): `undefined`, `null`, `false`, `0` and `''` are falsy. -/
def truthy : JsVal → Bool
  | undefined => false
  | null => false
  | bool b => b
  | num n => n != 0
  | str s => s != ""
  | object _ => true

/-- The JavaScript `a || b`: `a` when it is truthy, otherwise `b`. -/
def or (a b : JsVal) : JsVal :=
  if a.truthy then a else b

/-- String conversion as done by a template literal. Exact for `undefined`, `null`,
booleans, strings, plain objects and integers below `1e21`; a larger number prints in
exponent form in JavaScript and an array prints its elements joined by commas, which is
left out here (the ids the client interpolates are strings). -/
def toStr : JsVal → String
  | undefined => "undefined"
  | null => "null"
  | bool b => if b then "true" else "false"
  | num n => toString n
  | str s => s
  | object _ => "[object Object]"

end JsVal

/-! ## Key/value stores: `localStorage` and `axios.defaults.headers.common` -/

/-- A string-keyed store with at most one value per key. -/
abbrev Store := List (String × String)

namespace Store

/-- Reading a key: `localStorage.getItem(k)`, `headers[k]`; `none` is JavaScript `null`. -/
def getItem (st : Store) (k : String) : Option String :=
  match st with
  | [] => none
  | (k1, v) :: rest => if k1 = k then some v else getItem rest k

/-- Removing a key: `localStorage.removeItem(k)`, `delete headers[k]`. -/
def removeItem (st : Store) (k : String) : Store :=
  match st with
  | [] => []
  | (k1, v) :: rest => if k1 = k then removeItem rest k else (k1, v) :: removeItem rest k

/-- Writing a key: `localStorage.setItem(k, v)`, `headers[k] = v`. -/
def setItem (st : Store) (k v : String) : Store :=
  (k, v) :: removeItem st k

end Store

/-! ## Observable effects -/

/-- What a handler does to the outside world. A request is recorded by its method, its
URL and the fields of its body (a file by its name); a toast by its message. -/
inductive Effect where
  | request (method url : String) (body : List (String × String))
  | toastSuccess (msg : JsVal)
  | toastError (msg : JsVal)
  | consoleError (msg : String)
  | navigate (path : String)
  | windowOpen (url target : String)
  deriving DecidableEq, Repr

namespace Effect

/-- An effect that is an HTTP request. -/
def isRequest : Effect → Bool
  | request _ _ _ => true
  | _ => false

/-- An effect that is an error toast. -/
def isToastError : Effect → Bool
  | toastError _ => true
  | _ => false

/-- An effect that is a navigation. -/
def isNavigate : Effect → Bool
  | navigate _ => true
  | _ => false

end Effect

/-! ## Backend responses -/

/-- User record as sent by the backend (`response.data` of `/users/me`, `user` of the
authentication responses). -/
structure User where
  id : String
  name : String
  email : String
  role : String
  deriving DecidableEq, Repr

/-- The `data` of a successful authentication response: `access_token` and `user`. -/
structure AuthResponse where
  access_token : String
  user : User
  deriving DecidableEq, Repr

/-- The `data` of an error response; `detail` is `undefined` when the body has none. -/
structure ErrorData where
  detail : JsVal
  deriving DecidableEq, Repr

/-- An error response; `data` may be missing. -/
structure ErrorResponse where
  data : Option ErrorData
  deriving DecidableEq, Repr

/-- A rejected request; `response` is missing when no response arrived. -/
structure AxiosError where
  response : Option ErrorResponse
  deriving DecidableEq, Repr

/-- The expression `error.response?.data?.detail`. -/
def errorDetail (error : AxiosError) : JsVal :=
  match error.response with
  | none => JsVal.undefined
  | some r =>
    match r.data with
    | none => JsVal.undefined
    | some d => d.detail

/-! ## AuthProvider -/

/-- State of `AuthProvider`: its three `useState` cells, the two stores it writes, the
effect log, and the number of `GET /users/me` lookups issued and not yet settled. -/
structure AuthState where
  user : Option User
  loading : Bool
  token : Option String
  localStorage : Store
  headers : Store
  log : List Effect
  inflight : Nat
  deriving DecidableEq, Repr

namespace AuthProvider

/-- The `logout` function (lines 151-157). -/
def logout (s : AuthState) : AuthState :=
  { s with
    token := none
    user := none
    localStorage := s.localStorage.removeItem "token"
    headers := s.headers.removeItem "Authorization"
    log := s.log ++ [Effect.toastSuccess (JsVal.str "Logged out successfully")] }

/-- The four state writes shared by the success paths of `login`, `register` and
`googleLogin`: `setToken`, `setUser`, `localStorage.setItem`, default header. -/
def storeSession (s : AuthState) (r : AuthResponse) : AuthState :=
  { s with
    token := some r.access_token
    user := some r.user
    localStorage := s.localStorage.setItem "token" r.access_token
    headers := s.headers.setItem "Authorization" ("Bearer " ++ r.access_token) }

/-- The `login` function (lines 93-109); `result` is the outcome of the awaited POST. -/
def login (api : String) (s : AuthState) (email password : String)
    (result : Except AxiosError AuthResponse) : Bool × AuthState :=
  let s1 := { s with log := s.log ++
    [Effect.request "POST" (api ++ "/auth/login") [("email", email), ("password", password)]] }
  match result with
  | Except.ok r =>
    let s2 := storeSession s1 r
    (true, { s2 with log := s2.log ++ [Effect.toastSuccess (JsVal.str "Login successful!")] })
  | Except.error error =>
    (false, { s1 with log := s1.log ++
      [Effect.toastError ((errorDetail error).or (JsVal.str "Login failed"))] })

/-- The `register` function (lines 111-127). -/
def register (api : String) (s : AuthState) (name email password : String)
    (result : Except AxiosError AuthResponse) : Bool × AuthState :=
  let s1 := { s with log := s.log ++
    [Effect.request "POST" (api ++ "/auth/register")
      [("name", name), ("email", email), ("password", password)]] }
  match result with
  | Except.ok r =>
    let s2 := storeSession s1 r
    (true, { s2 with log := s2.log ++
      [Effect.toastSuccess (JsVal.str "Registration successful!")] })
  | Except.error error =>
    (false, { s1 with log := s1.log ++
      [Effect.toastError ((errorDetail error).or (JsVal.str "Registration failed"))] })

/-- The `googleLogin` function (lines 129-149). `popup` is the outcome of
`signInWithPopup` followed by `getIdToken` (the identity token, or a rejection);
`result` is the outcome of the awaited POST, which is only sent when `popup` succeeded. -/
def googleLogin (api : String) (s : AuthState) (popup : Except String String)
    (result : Except AxiosError AuthResponse) : Bool × AuthState :=
  match popup with
  | Except.error _ =>
    (false, { s with log := s.log ++
      [Effect.toastError (JsVal.str "Google login failed")] })
  | Except.ok idToken =>
    let s1 := { s with log := s.log ++
      [Effect.request "POST" (api ++ "/auth/google") [("token", idToken)]] }
    match result with
    | Except.ok r =>
      let s2 := storeSession s1 r
      (true, { s2 with log := s2.log ++
        [Effect.toastSuccess (JsVal.str "Google login successful!")] })
    | Except.error _ =>
      (false, { s1 with log := s1.log ++
        [Effect.toastError (JsVal.str "Google login failed")] })

/-- First half of `fetchUserInfo` (lines 81-83): the GET is sent and awaited. -/
def fetchUserInfoStart (api : String) (s : AuthState) : AuthState :=
  { s with
    log := s.log ++ [Effect.request "GET" (api ++ "/users/me") []]
    inflight := s.inflight + 1 }

/-- Second half of `fetchUserInfo` (lines 84-90): the awaited GET settles with `result`;
`try` stores the user, `catch` logs to the console and calls `logout`, `finally` clears
`loading`. -/
def fetchUserInfoSettle (s : AuthState) (result : Except AxiosError User) : AuthState :=
  let s1 :=
    match result with
    | Except.ok data => { s with user := some data }
    | Except.error _ =>
      logout { s with log := s.log ++ [Effect.consoleError "Failed to fetch user info:"] }
  { s1 with loading := false, inflight := s.inflight - 1 }

/-- Body of the `useEffect` with dependency `[token]` (lines 69-79). -/
def tokenEffect (api : String) (s : AuthState) : AuthState :=
  match s.token with
  | some token =>
    if token != "" then
      fetchUserInfoStart api
        { s with headers := s.headers.setItem "Authorization" ("Bearer " ++ token) }
    else
      { s with loading := false }
  | none => { s with loading := false }

/-- First render of `AuthProvider` (lines 65-67) followed by the effect: `user` is
`null`, `loading` is `true`, `token` is read from `localStorage`. `storage` and `headers`
are the browser storage and the axios default headers found at start. -/
def mount (api : String) (storage headers : Store) : AuthState :=
  tokenEffect api
    { user := none
      loading := true
      token := storage.getItem "token"
      localStorage := storage
      headers := headers
      log := []
      inflight := 0 }

/-- The render that follows a state update: React runs the effect again when its
dependency `token` differs from the one of the previous render. -/
def rerender (api : String) (before after : AuthState) : AuthState :=
  if after.token = before.token then after else tokenEffect api after

/-- The flag `isAuthenticated: !!user` (line 164). -/
def isAuthenticated (s : AuthState) : Bool :=
  s.user.isSome

/-- The flag `isAdmin: user?.role === 'admin'` (line 165). -/
def isAdmin (s : AuthState) : Bool :=
  match s.user with
  | none => false
  | some u => u.role == "admin"

end AuthProvider

/-- What `useAuth()` hands to `ProtectedRoute`: the data fields of the context `value`
(lines 159-166). -/
structure AuthValue where
  user : Option User
  loading : Bool
  isAuthenticated : Bool
  isAdmin : Bool
  deriving DecidableEq, Repr

/-- The data fields of the context `value` object built by `AuthProvider`. -/
def AuthProvider.value (s : AuthState) : AuthValue :=
  { user := s.user
    loading := s.loading
    isAuthenticated := AuthProvider.isAuthenticated s
    isAdmin := AuthProvider.isAdmin s }

/-! ## The session manager as a transition system -/

/-- What can happen to a mounted `AuthProvider`: an in-flight lookup settles, or one of
its operations is called and its request settles with the given outcome. -/
inductive AuthEvent where
  | lookupSettled (result : Except AxiosError User)
  | login (email password : String) (result : Except AxiosError AuthResponse)
  | register (name email password : String) (result : Except AxiosError AuthResponse)
  | googleLogin (popup : Except String String) (result : Except AxiosError AuthResponse)
  | logout

/-- One event followed by the render it causes. A lookup can only settle while one is in
flight. -/
def AuthProvider.step (api : String) (s : AuthState) (ev : AuthEvent) : AuthState :=
  match ev with
  | AuthEvent.lookupSettled result =>
    if s.inflight = 0 then s
    else AuthProvider.rerender api s (AuthProvider.fetchUserInfoSettle s result)
  | AuthEvent.login email password result =>
    AuthProvider.rerender api s (AuthProvider.login api s email password result).2
  | AuthEvent.register name email password result =>
    AuthProvider.rerender api s (AuthProvider.register api s name email password result).2
  | AuthEvent.googleLogin popup result =>
    AuthProvider.rerender api s (AuthProvider.googleLogin api s popup result).2
  | AuthEvent.logout =>
    AuthProvider.rerender api s (AuthProvider.logout s)

/-- The state reached from a fresh mount by a sequence of events. -/
def AuthProvider.run (api : String) (storage headers : Store) (evs : List AuthEvent) :
    AuthState :=
  evs.foldl (AuthProvider.step api) (AuthProvider.mount api storage headers)

/-- Number of current-user lookups (`GET /users/me`) in an effect log. -/
def lookupCount (api : String) (log : List Effect) : Nat :=
  (log.filter (fun e => decide (e = Effect.request "GET" (api ++ "/users/me") []))).length

/-! ## Route guard and route table -/

/-- What a route element renders to. -/
inductive Rendered (α : Type) where
  | loadingPlaceholder
  | navigate (path : String) (replace : Bool)
  | view (children : α)
  deriving DecidableEq, Repr

/-- The `ProtectedRoute` component (lines 1772-1795). -/
def ProtectedRoute {α : Type} (ctx : AuthValue) (children : α) (adminOnly : Bool) :
    Rendered α :=
  if ctx.loading then Rendered.loadingPlaceholder
  else if !ctx.isAuthenticated then Rendered.navigate "/login" true
  else if adminOnly && !ctx.isAdmin then Rendered.navigate "/dashboard" true
  else Rendered.view children

/-- The page components mounted by the route table. -/
inductive Page where
  | HomePage
  | LoginPage
  | ClassesPage
  | BookingPage
  | DashboardPage
  | AdminPage
  deriving DecidableEq, Repr

/-- The `Routes` table of `App` (lines 1805-1825), on a path given by its segments:
`['book', id]` is `/book/:id`; `adminOnly` defaults to `false` where it is not passed.
Segments are compared as written; the router also accepts other letter case (`/LOGIN`),
which is left out here. -/
def App (ctx : AuthValue) (path : List String) : Rendered Page :=
  match path with
  | [] => Rendered.view Page.HomePage
  | [seg] =>
    if seg = "login" then Rendered.view Page.LoginPage
    else if seg = "classes" then Rendered.view Page.ClassesPage
    else if seg = "dashboard" then ProtectedRoute ctx Page.DashboardPage false
    else if seg = "admin" then ProtectedRoute ctx Page.AdminPage true
    else Rendered.navigate "/" true
  | [seg, _] =>
    if seg = "book" then ProtectedRoute ctx Page.BookingPage false
    else Rendered.navigate "/" true
  | _ => Rendered.navigate "/" true

/-! ## BookingPage -/

/-- A class as sent by the backend, with the fields the client reads. -/
structure Event where
  id : String
  title : String
  description : String
  date : String
  time : String
  price : Int
  delivery_mode : String
  capacity : Int
  qr_code_base64 : Option String
  deriving DecidableEq, Repr

/-- A file chosen in a file input. -/
structure File where
  name : String
  deriving DecidableEq, Repr

/-- State of `BookingPage` (lines 598-604): the route id, its six `useState` cells, and
the effect log. `bookingId` is `null` until `response.data.id` is stored. -/
structure BookingPageState where
  eventId : String
  event : Option Event
  loading : Bool
  bookingLoading : Bool
  paymentProof : Option File
  utrNumber : String
  bookingId : JsVal
  log : List Effect
  deriving DecidableEq, Repr

namespace BookingPage

/-- The `handlePaymentUpload` handler (lines 646-668); `result` is the outcome of the
awaited POST, consulted only if the request is sent. -/
def handlePaymentUpload (api : String) (s : BookingPageState)
    (result : Except AxiosError Unit) : BookingPageState :=
  match s.paymentProof with
  | none =>
    { s with log := s.log ++
      [Effect.toastError (JsVal.str "Please select payment proof and enter UTR number")] }
  | some file =>
    if s.utrNumber = "" || !s.bookingId.truthy then
      { s with log := s.log ++
        [Effect.toastError (JsVal.str "Please select payment proof and enter UTR number")] }
    else
      let s1 := { s with log := s.log ++
        [Effect.request "POST" (api ++ "/bookings/" ++ s.bookingId.toStr ++ "/payment-proof")
          [("file", file.name), ("utr_number", s.utrNumber)]] }
      match result with
      | Except.ok _ =>
        { s1 with log := s1.log ++
          [Effect.toastSuccess (JsVal.str
            "Payment proof uploaded successfully! Your booking is now pending approval."),
           Effect.navigate "/dashboard"] }
      | Except.error error =>
        { s1 with log := s1.log ++
          [Effect.toastError ((errorDetail error).or (JsVal.str "Upload failed"))] }

end BookingPage

/-! ## Paths -/

/-- Splitting at every occurrence of `sep`, as `String.prototype.split` does on the
characters of a string; the result is never empty. -/
def splitChars (sep : Char) : List Char → List (List Char)
  | [] => [[]]
  | c :: cs =>
    if c = sep then [] :: splitChars sep cs
    else
      match splitChars sep cs with
      | [] => [[c]]
      | seg :: rest => (c :: seg) :: rest

/-- The JavaScript `s.split(sep)` for a one-character separator. -/
def jsSplit (s : String) (sep : Char) : List String :=
  (splitChars sep s.data).map String.mk

/-- The segments of a URL path as React Router matches them: the empty text before the
leading slash and trailing slashes do not count; an empty segment in the middle (a
double slash) stays and matches no route. This is the `path` argument of `App`. -/
def pathSegments (pathname : String) : List String :=
  let segs :=
    match jsSplit pathname '/' with
    | [] => []
    | first :: rest => if first = "" then rest else first :: rest
  (segs.reverse.dropWhile (fun seg => seg == "")).reverse

/-- The `:id` parameter that the route pattern `/book/:id` (line 1809) binds on a path,
if the path matches it. The segment is kept as written in the path: the router also
percent-decodes it (`a%20b` binds `a b`), which is left out here. -/
def bookRouteId (pathname : String) : Option String :=
  match pathSegments pathname with
  | [seg, id] => if seg = "book" then some id else none
  | _ => none

/-! ## BookingPage: mount, event fetch, booking creation, render -/

namespace BookingPage

/-- The expression `window.location.pathname.split('/').pop()` (line 598). -/
def eventIdOfPath (pathname : String) : String :=
  (jsSplit pathname '/').getLast?.getD ""

/-- The state of the first render (lines 598-604). -/
def init (pathname : String) : BookingPageState :=
  { eventId := eventIdOfPath pathname
    event := none
    loading := true
    bookingLoading := false
    paymentProof := none
    utrNumber := ""
    bookingId := JsVal.null
    log := [] }

/-- First half of `fetchEvent` (lines 616-618): the GET is sent and awaited. -/
def fetchEventStart (api : String) (s : BookingPageState) : BookingPageState :=
  { s with log := s.log ++ [Effect.request "GET" (api ++ "/events/" ++ s.eventId) []] }

/-- Second half of `fetchEvent` (lines 619-624): `try` stores the event, `catch` toasts,
`finally` clears `loading`. -/
def fetchEventSettle (s : BookingPageState) (result : Except AxiosError Event) :
    BookingPageState :=
  let s1 :=
    match result with
    | Except.ok data => { s with event := some data }
    | Except.error _ =>
      { s with log := s.log ++ [Effect.toastError (JsVal.str "Failed to fetch event details")] }
  { s1 with loading := false }

/-- Body of the `useEffect` with dependencies `[eventId, isAuthenticated]`
(lines 608-614). -/
def mountEffect (api : String) (isAuthenticated : Bool) (s : BookingPageState) :
    BookingPageState :=
  if !isAuthenticated then { s with log := s.log ++ [Effect.navigate "/login"] }
  else fetchEventStart api s

/-- First render followed by the effect. -/
def mount (api pathname : String) (isAuthenticated : Bool) : BookingPageState :=
  mountEffect api isAuthenticated (init pathname)

/-- The `handleBooking` handler (lines 627-644); `result` is the outcome of the awaited
POST: the `id` of `response.data` (`undefined` when it has none), or a rejection. -/
def handleBooking (api : String) (s : BookingPageState) (result : Except AxiosError JsVal) :
    BookingPageState :=
  match s.event with
  | none => s
  | some _ =>
    let s1 := { s with
      bookingLoading := true
      log := s.log ++ [Effect.request "POST" (api ++ "/bookings")
        [("event_id", s.eventId), ("booking_type", "single")]] }
    let s2 :=
      match result with
      | Except.ok id =>
        { s1 with
          bookingId := id
          log := s1.log ++ [Effect.toastSuccess (JsVal.str
            "Booking created successfully! Please upload payment proof.")] }
      | Except.error error =>
        { s1 with log := s1.log ++
          [Effect.toastError ((errorDetail error).or (JsVal.str "Booking failed"))] }
    { s2 with bookingLoading := false }

end BookingPage

/-- The control shown in the payment column of `BookingPage` (lines 747-789). -/
inductive BookingStage where
  | bookButton (disabled : Bool)
  | uploadForm
  deriving DecidableEq, Repr

/-- What `BookingPage` renders (lines 670-797). -/
inductive BookingView where
  | loadingPlaceholder
  | eventNotFound
  | details (event : Event) (stage : BookingStage)
  deriving DecidableEq, Repr

/-- The render of `BookingPage`: the two early returns, then the event details with the
switch `!bookingId ? button : upload form`. -/
def BookingPage.render (s : BookingPageState) : BookingView :=
  if s.loading then BookingView.loadingPlaceholder
  else
    match s.event with
    | none => BookingView.eventNotFound
    | some event =>
      BookingView.details event
        (if !s.bookingId.truthy then BookingStage.bookButton s.bookingLoading
         else BookingStage.uploadForm)

/-! ## Views that fetch on mount: ClassesPage, DashboardPage -/

/-- A booking as sent by the backend, with the fields the client reads. -/
structure Booking where
  id : String
  user_id : String
  booking_type : String
  status : String
  utr_number : Option String
  payment_proof_base64 : Option String
  created_at : String
  deriving DecidableEq, Repr

/-- State of `ClassesPage` (lines 492-493) and its effect log. -/
structure ClassesPageState where
  events : List Event
  loading : Bool
  log : List Effect
  deriving DecidableEq, Repr

namespace ClassesPage

/-- The state of the first render. -/
def init : ClassesPageState :=
  { events := [], loading := true, log := [] }

/-- First half of `fetchEvents` (lines 500-502): the GET is sent and awaited. -/
def fetchEventsStart (api : String) (s : ClassesPageState) : ClassesPageState :=
  { s with log := s.log ++ [Effect.request "GET" (api ++ "/events") []] }

/-- Second half of `fetchEvents` (lines 503-508). -/
def fetchEventsSettle (s : ClassesPageState) (result : Except AxiosError (List Event)) :
    ClassesPageState :=
  let s1 :=
    match result with
    | Except.ok data => { s with events := data }
    | Except.error _ =>
      { s with log := s.log ++ [Effect.toastError (JsVal.str "Failed to fetch events")] }
  { s1 with loading := false }

/-- First render followed by the effect with no dependencies (lines 496-498). -/
def mount (api : String) : ClassesPageState :=
  fetchEventsStart api init

end ClassesPage

/-- State of `DashboardPage` (lines 800-801) and its effect log. -/
structure DashboardPageState where
  bookings : List Booking
  loading : Bool
  log : List Effect
  deriving DecidableEq, Repr

/-- The three numbers of the stats cards of `DashboardPage`. -/
structure DashboardStats where
  total : Nat
  approved : Nat
  pending : Nat
  deriving DecidableEq, Repr

namespace DashboardPage

/-- The state of the first render. -/
def init : DashboardPageState :=
  { bookings := [], loading := true, log := [] }

/-- First half of `fetchBookings` (lines 808-810): the GET is sent and awaited. -/
def fetchBookingsStart (api : String) (s : DashboardPageState) : DashboardPageState :=
  { s with log := s.log ++ [Effect.request "GET" (api ++ "/bookings") []] }

/-- Second half of `fetchBookings` (lines 811-816). -/
def fetchBookingsSettle (s : DashboardPageState) (result : Except AxiosError (List Booking)) :
    DashboardPageState :=
  let s1 :=
    match result with
    | Except.ok data => { s with bookings := data }
    | Except.error _ =>
      { s with log := s.log ++ [Effect.toastError (JsVal.str "Failed to fetch bookings")] }
  { s1 with loading := false }

/-- First render followed by the effect with no dependencies (lines 804-806). -/
def mount (api : String) : DashboardPageState :=
  fetchBookingsStart api init

/-- The stats cards (lines 861-895): `bookings.length` and the lengths of the two
`bookings.filter(b => b.status === ...)`. -/
def stats (s : DashboardPageState) : DashboardStats :=
  { total := s.bookings.length
    approved := (s.bookings.filter (fun b => b.status == "approved")).length
    pending := (s.bookings.filter (fun b => b.status == "pending")).length }

end DashboardPage

/-! ## AdminPage and AdminDashboardTab -/

/-- The snapshot sent by `GET /admin/dashboard`. -/
structure DashboardData where
  total_users : Int
  total_events : Int
  total_bookings : Int
  pending_bookings : Int
  recent_bookings : List Booking
  deriving DecidableEq, Repr

/-- State of `AdminPage` (lines 971-973) and its effect log. -/
structure AdminPageState where
  activeTab : String
  dashboardData : Option DashboardData
  loading : Bool
  log : List Effect
  deriving DecidableEq, Repr

/-- The tab components `AdminPage` can mount (lines 1040-1047). -/
inductive AdminTabContent where
  | AdminDashboardTab (data : Option DashboardData)
  | AdminEventsTab
  | AdminBookingsTab
  | AdminUsersTab
  | AdminSettingsTab
  deriving DecidableEq, Repr

/-- What can happen to a mounted `AdminPage`: its fetch settles, or the tab button at
position `index` of the tab bar is clicked. -/
inductive AdminPageEvent where
  | fetchSettled (result : Except AxiosError DashboardData)
  | clickTab (index : Nat)

namespace AdminPage

/-- The state of the first render. -/
def init : AdminPageState :=
  { activeTab := "dashboard", dashboardData := none, loading := true, log := [] }

/-- First half of `fetchDashboardData` (lines 979-981): the GET is sent and awaited. -/
def fetchDashboardDataStart (api : String) (s : AdminPageState) : AdminPageState :=
  { s with log := s.log ++ [Effect.request "GET" (api ++ "/admin/dashboard") []] }

/-- Second half of `fetchDashboardData` (lines 982-987). -/
def fetchDashboardDataSettle (s : AdminPageState) (result : Except AxiosError DashboardData) :
    AdminPageState :=
  let s1 :=
    match result with
    | Except.ok data => { s with dashboardData := some data }
    | Except.error _ =>
      { s with log := s.log ++
        [Effect.toastError (JsVal.str "Failed to fetch dashboard data")] }
  { s1 with loading := false }

/-- First render followed by the effect with no dependencies (lines 975-977). -/
def mount (api : String) : AdminPageState :=
  fetchDashboardDataStart api init

/-- The `tabs` array (lines 991-997): id and name of each tab. -/
def tabs : List (String × String) :=
  [("dashboard", "Dashboard"), ("events", "Events"), ("bookings", "Bookings"),
   ("users", "Users"), ("settings", "Settings")]

/-- A click on the button rendered for `tabs[index]` (lines 1024-1027): it calls
`setActiveTab(tab.id)`. The tab bar is not rendered while `loading`. -/
def clickTab (s : AdminPageState) (index : Nat) : AdminPageState :=
  if s.loading then s
  else
    match tabs.get? index with
    | some tab => { s with activeTab := tab.1 }
    | none => s

/-- The tab contents mounted by the render (lines 999-1008 and 1040-1047). -/
def mounted (s : AdminPageState) : List AdminTabContent :=
  if s.loading then []
  else
    (if s.activeTab = "dashboard" then [AdminTabContent.AdminDashboardTab s.dashboardData]
      else []) ++
    (if s.activeTab = "events" then [AdminTabContent.AdminEventsTab] else []) ++
    (if s.activeTab = "bookings" then [AdminTabContent.AdminBookingsTab] else []) ++
    (if s.activeTab = "users" then [AdminTabContent.AdminUsersTab] else []) ++
    (if s.activeTab = "settings" then [AdminTabContent.AdminSettingsTab] else [])

/-- One event of a mounted `AdminPage`. -/
def step (s : AdminPageState) (ev : AdminPageEvent) : AdminPageState :=
  match ev with
  | AdminPageEvent.fetchSettled result => fetchDashboardDataSettle s result
  | AdminPageEvent.clickTab index => clickTab s index

/-- The state reached from a fresh mount by a sequence of events. -/
def run (api : String) (evs : List AdminPageEvent) : AdminPageState :=
  evs.foldl step (mount api)

end AdminPage

/-- One entry of the recent-bookings list of `AdminDashboardTab` (lines 1115-1129). -/
structure RecentBookingRow where
  key : String
  label : String
  created_at : String
  badgeClass : String
  status : String
  deriving DecidableEq, Repr

/-- The recent-bookings section of `AdminDashboardTab`. -/
inductive RecentBookingsView where
  | noRecentBookings
  | rows (entries : List RecentBookingRow)
  deriving DecidableEq, Repr

namespace AdminDashboardTab

/-- The entry rendered for one booking: the key, the first eight characters of the id,
the status badge with its inline colour choice, and the creation date kept as sent: the
code shows `new Date(created_at).toLocaleDateString()`, whose text depends on the locale
of the browser and is left out here. -/
def recentRow (booking : Booking) : RecentBookingRow :=
  { key := booking.id
    label := "Booking #" ++ String.mk (booking.id.data.take 8) ++ "..."
    created_at := booking.created_at
    badgeClass :=
      if booking.status = "approved" then "bg-green-100 text-green-800"
      else if booking.status = "rejected" then "bg-red-100 text-red-800"
      else "bg-yellow-100 text-yellow-800"
    status := booking.status }

/-- The recent-bookings section (lines 1110-1131) for a snapshot that is not `null`. -/
def recentBookings (data : DashboardData) : RecentBookingsView :=
  if data.recent_bookings.length = 0 then RecentBookingsView.noRecentBookings
  else RecentBookingsView.rows ((data.recent_bookings.take 5).map recentRow)

/-- The entries a recent-bookings section shows. -/
def entries : RecentBookingsView → List RecentBookingRow
  | RecentBookingsView.noRecentBookings => []
  | RecentBookingsView.rows es => es

end AdminDashboardTab

/-! ## AdminEventsTab and CreateEventForm -/

/-- State of `AdminEventsTab` (lines 1140-1142) and its effect log. -/
structure AdminEventsTabState where
  events : List Event
  loading : Bool
  showCreateForm : Bool
  log : List Effect
  deriving DecidableEq, Repr

namespace AdminEventsTab

/-- The state of the first render. -/
def init : AdminEventsTabState :=
  { events := [], loading := true, showCreateForm := false, log := [] }

/-- First half of `fetchEvents` (lines 1148-1150): the GET is sent and awaited. -/
def fetchEventsStart (api : String) (s : AdminEventsTabState) : AdminEventsTabState :=
  { s with log := s.log ++ [Effect.request "GET" (api ++ "/events") []] }

/-- Second half of `fetchEvents` (lines 1151-1156). -/
def fetchEventsSettle (s : AdminEventsTabState) (result : Except AxiosError (List Event)) :
    AdminEventsTabState :=
  let s1 :=
    match result with
    | Except.ok data => { s with events := data }
    | Except.error _ =>
      { s with log := s.log ++ [Effect.toastError (JsVal.str "Failed to fetch events")] }
  { s1 with loading := false }

/-- First render followed by the effect with no dependencies (lines 1144-1146). -/
def mount (api : String) : AdminEventsTabState :=
  fetchEventsStart api init

/-- The `onSuccess` callback handed to `CreateEventForm` (lines 1176-1179). -/
def onSuccess (api : String) (s : AdminEventsTabState) : AdminEventsTabState :=
  fetchEventsStart api { s with showCreateForm := false }

end AdminEventsTab

/-- The `formData` object of `CreateEventForm` (lines 1219-1228); every field holds the
text of its input (`capacity` starts as the number 50, read as text by `parseInt`). -/
structure EventFormData where
  title : String
  description : String
  date : String
  time : String
  price : String
  delivery_mode : String
  capacity : String
  session_link : String
  deriving DecidableEq, Repr

/-- State of `CreateEventForm` (lines 1219-1230), its effect log, and the number of
calls made to its `onSuccess` property. -/
structure CreateEventFormState where
  formData : EventFormData
  qrFile : Option File
  loading : Bool
  log : List Effect
  onSuccessCalls : Nat
  deriving DecidableEq, Repr

namespace CreateEventForm

/-- The state of the first render. -/
def init : CreateEventFormState :=
  { formData :=
      { title := "", description := "", date := "", time := "", price := "",
        delivery_mode := "online", capacity := "50", session_link := "" }
    qrFile := none
    loading := false
    log := []
    onSuccessCalls := 0 }

/-- The body of the creation request (lines 1239-1243): the form fields with `price` and
`capacity` replaced by their parsed numbers, then `is_online`. The built-ins
`parseFloat` and `parseInt` are parameters, each giving the JSON text of its result. -/
def createBody (parseFloat parseInt : String → String) (f : EventFormData) :
    List (String × String) :=
  [("title", f.title), ("description", f.description), ("date", f.date), ("time", f.time),
   ("price", parseFloat f.price), ("delivery_mode", f.delivery_mode),
   ("capacity", parseInt f.capacity), ("session_link", f.session_link),
   ("is_online", (JsVal.bool (f.delivery_mode != "offline")).toStr)]

/-- The `handleSubmit` handler (lines 1232-1261). `created` is the outcome of the awaited
creation request (the `id` of `eventResponse.data`, or a rejection); `uploaded` is the
outcome of the awaited upload, consulted only if the upload is sent. -/
def handleSubmit (api : String) (parseFloat parseInt : String → String)
    (s : CreateEventFormState) (created : Except AxiosError JsVal)
    (uploaded : Except AxiosError Unit) : CreateEventFormState :=
  let s1 := { s with
    loading := true
    log := s.log ++
      [Effect.request "POST" (api ++ "/events") (createBody parseFloat parseInt s.formData)] }
  let succeed := fun (t : CreateEventFormState) =>
    { t with
      log := t.log ++ [Effect.toastSuccess (JsVal.str "Event created successfully!")]
      onSuccessCalls := t.onSuccessCalls + 1 }
  let fail := fun (t : CreateEventFormState) (error : AxiosError) =>
    { t with log := t.log ++
      [Effect.toastError ((errorDetail error).or (JsVal.str "Failed to create event"))] }
  let s2 :=
    match created with
    | Except.error error => fail s1 error
    | Except.ok id =>
      match s.qrFile with
      | none => succeed s1
      | some file =>
        let s3 := { s1 with log := s1.log ++
          [Effect.request "POST" (api ++ "/events/" ++ id.toStr ++ "/qr-code")
            [("file", file.name)]] }
        match uploaded with
        | Except.ok _ => succeed s3
        | Except.error error => fail s3 error
  { s2 with loading := false }

end CreateEventForm

/-! ## AdminBookingsTab and AdminUsersTab -/

/-- State of `AdminBookingsTab` (lines 1401-1402) and its effect log. -/
structure AdminBookingsTabState where
  bookings : List Booking
  loading : Bool
  log : List Effect
  deriving DecidableEq, Repr

/-- The buttons of the actions cell of a booking row (lines 1500-1525). -/
inductive RowAction where
  | approve
  | reject
  | viewProof
  deriving DecidableEq, Repr

/-- What can happen to a mounted `AdminBookingsTab`: a fetch settles, a status update
settles, or the button `action` of the row at position `row` is clicked. -/
inductive AdminBookingsEvent where
  | fetchSettled (result : Except AxiosError (List Booking))
  | updateSettled (result : Except AxiosError Unit)
  | click (row : Nat) (action : RowAction)

namespace AdminBookingsTab

/-- The state of the first render. -/
def init : AdminBookingsTabState :=
  { bookings := [], loading := true, log := [] }

/-- First half of `fetchBookings` (lines 1408-1410): the GET is sent and awaited. -/
def fetchBookingsStart (api : String) (s : AdminBookingsTabState) : AdminBookingsTabState :=
  { s with log := s.log ++ [Effect.request "GET" (api ++ "/bookings") []] }

/-- Second half of `fetchBookings` (lines 1411-1416). -/
def fetchBookingsSettle (s : AdminBookingsTabState)
    (result : Except AxiosError (List Booking)) : AdminBookingsTabState :=
  let s1 :=
    match result with
    | Except.ok data => { s with bookings := data }
    | Except.error _ =>
      { s with log := s.log ++ [Effect.toastError (JsVal.str "Failed to fetch bookings")] }
  { s1 with loading := false }

/-- First render followed by the effect with no dependencies (lines 1404-1406). -/
def mount (api : String) : AdminBookingsTabState :=
  fetchBookingsStart api init

/-- First half of `updateBookingStatus` (lines 1419-1424): the PUT is sent and awaited;
`notes` is `''` when the caller passes none. -/
def updateBookingStatusStart (api : String) (s : AdminBookingsTabState)
    (bookingId status notes : String) : AdminBookingsTabState :=
  { s with log := s.log ++
    [Effect.request "PUT" (api ++ "/bookings/" ++ bookingId ++ "/status")
      [("status", status), ("admin_notes", notes)]] }

/-- Second half of `updateBookingStatus` (lines 1425-1429): on success a toast and a
new `fetchBookings()`, on failure a toast. -/
def updateBookingStatusSettle (api : String) (s : AdminBookingsTabState)
    (result : Except AxiosError Unit) : AdminBookingsTabState :=
  match result with
  | Except.ok _ =>
    fetchBookingsStart api
      { s with log := s.log ++
        [Effect.toastSuccess (JsVal.str "Booking status updated successfully")] }
  | Except.error _ =>
    { s with log := s.log ++
      [Effect.toastError (JsVal.str "Failed to update booking status")] }

/-- The buttons rendered in the actions cell of a row (lines 1500-1525). -/
def rowActions (booking : Booking) : List RowAction :=
  (if booking.status = "pending" then [RowAction.approve, RowAction.reject] else []) ++
  (match booking.payment_proof_base64 with
    | some proof => if proof != "" then [RowAction.viewProof] else []
    | none => [])

/-- The rows of the table with their buttons: none while `loading` (lines 1443-1450),
otherwise one per held booking, in order (line 1480). -/
def rows (s : AdminBookingsTabState) : List (Booking × List RowAction) :=
  if s.loading then [] else s.bookings.map (fun b => (b, rowActions b))

/-- The `onClick` of a button of a row (lines 1503-1520). -/
def onClick (api : String) (s : AdminBookingsTabState) (booking : Booking)
    (action : RowAction) : AdminBookingsTabState :=
  match action with
  | RowAction.approve => updateBookingStatusStart api s booking.id "approved" ""
  | RowAction.reject => updateBookingStatusStart api s booking.id "rejected" ""
  | RowAction.viewProof =>
    { s with log := s.log ++
      [Effect.windowOpen (booking.payment_proof_base64.getD "") "_blank"] }

/-- One event of a mounted `AdminBookingsTab`. A click reaches a handler only through a
button that the current render shows. -/
def step (api : String) (s : AdminBookingsTabState) (ev : AdminBookingsEvent) :
    AdminBookingsTabState :=
  match ev with
  | AdminBookingsEvent.fetchSettled result => fetchBookingsSettle s result
  | AdminBookingsEvent.updateSettled result => updateBookingStatusSettle api s result
  | AdminBookingsEvent.click row action =>
    match (rows s).get? row with
    | some (booking, actions) => if action ∈ actions then onClick api s booking action else s
    | none => s

/-- The state reached from a fresh mount by a sequence of events. -/
def run (api : String) (evs : List AdminBookingsEvent) : AdminBookingsTabState :=
  evs.foldl (step api) (mount api)

end AdminBookingsTab

/-- A user as listed by `GET /users`, with the fields the users tab reads. -/
structure UserRow where
  id : String
  name : String
  email : String
  role : String
  status : String
  created_at : String
  deriving DecidableEq, Repr

/-- State of `AdminUsersTab` (lines 1536-1537) and its effect log. -/
structure AdminUsersTabState where
  users : List UserRow
  loading : Bool
  log : List Effect
  deriving DecidableEq, Repr

namespace AdminUsersTab

/-- The state of the first render. -/
def init : AdminUsersTabState :=
  { users := [], loading := true, log := [] }

/-- First half of `fetchUsers` (lines 1543-1545): the GET is sent and awaited. -/
def fetchUsersStart (api : String) (s : AdminUsersTabState) : AdminUsersTabState :=
  { s with log := s.log ++ [Effect.request "GET" (api ++ "/users") []] }

/-- Second half of `fetchUsers` (lines 1546-1551). -/
def fetchUsersSettle (s : AdminUsersTabState) (result : Except AxiosError (List UserRow)) :
    AdminUsersTabState :=
  let s1 :=
    match result with
    | Except.ok data => { s with users := data }
    | Except.error _ =>
      { s with log := s.log ++ [Effect.toastError (JsVal.str "Failed to fetch users")] }
  { s1 with loading := false }

/-- First render followed by the effect with no dependencies (lines 1539-1541). -/
def mount (api : String) : AdminUsersTabState :=
  fetchUsersStart api init

end AdminUsersTab

/-! ## Context value, navigation bar, settings tab, form inputs, status colours -/

/-- The property names of the context `value` object (lines 159-166), in order. -/
def AuthProvider.valueKeys : List String :=
  ["user", "login", "logout", "loading", "isAuthenticated", "isAdmin"]

/-- The functions declared in the body of `AuthProvider` (lines 81-157), in order. -/
def AuthProvider.declaredFunctions : List String :=
  ["fetchUserInfo", "login", "register", "googleLogin", "logout"]

/-- What a view gets when it reads the property `key` of `useAuth()`: `true` when the
context value has that property, `false` when it reads `undefined`. -/
def useAuthHas (key : String) : Bool :=
  AuthProvider.valueKeys.contains key

/-- The targets of the navigation links of `Navbar` (lines 201-217): home and classes
always, the dashboard when `isAuthenticated`, admin when `user?.role === 'admin'`. -/
def Navbar.links (ctx : AuthValue) : List String :=
  ["/", "/classes"] ++
  (if ctx.isAuthenticated then ["/dashboard"] else []) ++
  (match ctx.user with
    | some u => if u.role = "admin" then ["/admin"] else []
    | none => [])

/-- The SMTP configuration record edited by `AdminSettingsTab`; every field holds the
text of its input (`port` starts as the number 465). -/
structure SmtpSettings where
  mailer_name : String
  host : String
  port : String
  username : String
  email : String
  encryption : String
  password : String
  deriving DecidableEq, Repr

/-- State of `AdminSettingsTab` (lines 1649-1658) and its effect log. -/
structure AdminSettingsTabState where
  smtpSettings : SmtpSettings
  loading : Bool
  log : List Effect
  deriving DecidableEq, Repr

namespace AdminSettingsTab

/-- The state of the first render; `defaults` is the literal record of lines 1649-1657.
The component has no effect: mounting it does nothing else. -/
def mount (defaults : SmtpSettings) : AdminSettingsTabState :=
  { smtpSettings := defaults, loading := false, log := [] }

/-- The `handleSubmit` handler (lines 1660-1673); `result` is the outcome of the awaited
POST. -/
def handleSubmit (api : String) (s : AdminSettingsTabState) (result : Except AxiosError Unit) :
    AdminSettingsTabState :=
  let s1 := { s with
    loading := true
    log := s.log ++ [Effect.request "POST" (api ++ "/admin/smtp-settings")
      [("mailer_name", s.smtpSettings.mailer_name), ("host", s.smtpSettings.host),
       ("port", s.smtpSettings.port), ("username", s.smtpSettings.username),
       ("email", s.smtpSettings.email), ("encryption", s.smtpSettings.encryption),
       ("password", s.smtpSettings.password)]] }
  let s2 :=
    match result with
    | Except.ok _ =>
      { s1 with log := s1.log ++
        [Effect.toastSuccess (JsVal.str "SMTP settings updated successfully")] }
    | Except.error _ =>
      { s1 with log := s1.log ++
        [Effect.toastError (JsVal.str "Failed to update SMTP settings")] }
  { s2 with loading := false }

end AdminSettingsTab

/-- The effects of mounting a tab content of `AdminPage`: those of the component's own
mount. `AdminDashboardTab` is a function of its `data` property with no state and no
effect (lines 1056-1057); `AdminSettingsTab` has state and no effect. -/
def AdminTabContent.mountEffects (api : String) (defaults : SmtpSettings) :
    AdminTabContent → List Effect
  | AdminTabContent.AdminDashboardTab _ => []
  | AdminTabContent.AdminEventsTab => (AdminEventsTab.mount api).log
  | AdminTabContent.AdminBookingsTab => (AdminBookingsTab.mount api).log
  | AdminTabContent.AdminUsersTab => (AdminUsersTab.mount api).log
  | AdminTabContent.AdminSettingsTab => (AdminSettingsTab.mount defaults).log

namespace CreateEventForm

/-- The `onChange` of the delivery-mode select (line 1347). -/
def setDeliveryMode (s : CreateEventFormState) (value : String) : CreateEventFormState :=
  { s with formData := { s.formData with delivery_mode := value } }

/-- The `onChange` of the session-link input (line 1362). -/
def setSessionLink (s : CreateEventFormState) (value : String) : CreateEventFormState :=
  { s with formData := { s.formData with session_link := value } }

/-- Whether the session-link field is rendered (line 1356). -/
def sessionLinkShown (s : CreateEventFormState) : Bool :=
  s.formData.delivery_mode != "offline"

end CreateEventForm

/-- One submission of a `CreateEventForm` mounted by `AdminEventsTab`: the form's
`handleSubmit`, and the tab's `onSuccess` callback when the form called it. -/
def AdminEventsTab.formSubmitted (api : String) (parseFloat parseInt : String → String)
    (tab : AdminEventsTabState) (form : CreateEventFormState)
    (created : Except AxiosError JsVal) (uploaded : Except AxiosError Unit) :
    AdminEventsTabState × CreateEventFormState :=
  let form1 := CreateEventForm.handleSubmit api parseFloat parseInt form created uploaded
  (if form1.onSuccessCalls = form.onSuccessCalls then tab else AdminEventsTab.onSuccess api tab,
   form1)

/-- The `getStatusColor` of `DashboardPage` (lines 819-828); `switch` compares with
`===`. -/
def DashboardPage.getStatusColor (status : JsVal) : String :=
  if status = JsVal.str "approved" then "bg-green-100 text-green-800"
  else if status = JsVal.str "rejected" then "bg-red-100 text-red-800"
  else "bg-yellow-100 text-yellow-800"

/-- The `getStatusColor` of `AdminBookingsTab` (lines 1432-1441). -/
def AdminBookingsTab.getStatusColor (status : JsVal) : String :=
  if status = JsVal.str "approved" then "bg-green-100 text-green-800"
  else if status = JsVal.str "rejected" then "bg-red-100 text-red-800"
  else "bg-yellow-100 text-yellow-800"

/-- The inline conditional of the status badge of `AdminDashboardTab` (lines 1122-1126),
on any value of `booking.status`. -/
def AdminDashboardTab.badgeColor (status : JsVal) : String :=
  if status = JsVal.str "approved" then "bg-green-100 text-green-800"
  else if status = JsVal.str "rejected" then "bg-red-100 text-red-800"
  else "bg-yellow-100 text-yellow-800"

/-- The colour mapping in the words of the specification: green classes for the string
`approved`, red classes for the string `rejected`, yellow classes for every other value
(`pending`, unknown strings, a missing status). -/
def statusColourSpec : JsVal → String
  | JsVal.str s =>
    if s = "approved" then "bg-green-100 text-green-800"
    else if s = "rejected" then "bg-red-100 text-red-800"
    else "bg-yellow-100 text-yellow-800"
  | _ => "bg-yellow-100 text-yellow-800"

/-! ## Lemmas on stores -/

/-- A removed key reads as `null`. -/
theorem Store.getItem_removeItem_self (st : Store) (k : String) :
    (st.removeItem k).getItem k = none := by
  induction st with
  | nil => rfl
  | cons kv rest ih =>
    obtain ⟨k1, v⟩ := kv
    by_cases h : k1 = k
    · simp [Store.removeItem, h, ih]
    · simp [Store.removeItem, Store.getItem, h, ih]

/-- A written key reads as the value written. -/
theorem Store.getItem_setItem_self (st : Store) (k v : String) :
    (st.setItem k v).getItem k = some v := by
  simp [Store.setItem, Store.getItem]

/-- Removing a key leaves every other key as it was. -/
theorem Store.getItem_removeItem_of_ne (st : Store) (k k2 : String) (h : k2 ≠ k) :
    (st.removeItem k).getItem k2 = st.getItem k2 := by
  induction st with
  | nil => rfl
  | cons kv rest ih =>
    obtain ⟨k1, v⟩ := kv
    by_cases h1 : k1 = k
    · subst h1
      have h2 : ¬ k1 = k2 := fun e => h e.symm
      simp [Store.removeItem, Store.getItem, ih, h2]
    · by_cases h2 : k1 = k2
      · subst h2
        simp [Store.removeItem, Store.getItem, h1]
      · simp [Store.removeItem, Store.getItem, h1, h2, ih]

/-- Writing a key leaves every other key as it was. -/
theorem Store.getItem_setItem_of_ne (st : Store) (k v k2 : String) (h : k2 ≠ k) :
    (st.setItem k v).getItem k2 = st.getItem k2 := by
  have h1 : k ≠ k2 := fun e => h e.symm
  simp [Store.setItem, Store.getItem, h1, Store.getItem_removeItem_of_ne st k k2 h]

/-! ## Route guard -/

/-- C1: with `loading = false` and `isAuthenticated = false`, `ProtectedRoute` returns
the redirect to `/login` with `replace` set, for either value of `adminOnly` and whatever
`isAdmin` is, and so does not render its children. -/
theorem protectedRoute_unauthenticated {α : Type} (ctx : AuthValue) (children : α)
    (adminOnly : Bool) (hl : ctx.loading = false) (ha : ctx.isAuthenticated = false) :
    ProtectedRoute ctx children adminOnly = Rendered.navigate "/login" true ∧
    ProtectedRoute ctx children adminOnly ≠ Rendered.view children := by
  simp [ProtectedRoute, hl, ha]

/-- A fresh mount over empty storage is neither loading nor authenticated, and the
admin-only guard sends it to `/login`. -/
theorem protectedRoute_unauthenticated_witness :
    (AuthProvider.value (AuthProvider.mount "http://localhost:8001/api" [] [])).loading = false ∧
    (AuthProvider.value
      (AuthProvider.mount "http://localhost:8001/api" [] [])).isAuthenticated = false ∧
    ProtectedRoute (AuthProvider.value (AuthProvider.mount "http://localhost:8001/api" [] []))
      Page.AdminPage true = Rendered.navigate "/login" true :=
  ⟨by decide, by decide,
    (protectedRoute_unauthenticated
      (AuthProvider.value (AuthProvider.mount "http://localhost:8001/api" [] []))
      Page.AdminPage true (by decide) (by decide)).1⟩

/-- C2: with `loading = false`, `isAuthenticated = true` and `isAdmin = false`,
`ProtectedRoute` with `adminOnly = true` returns the redirect to `/dashboard` with
`replace` set and does not render its children; in particular the `/admin` route of
`App` does not render `AdminPage`. -/
theorem protectedRoute_adminOnly_nonAdmin {α : Type} (ctx : AuthValue) (children : α)
    (hl : ctx.loading = false) (ha : ctx.isAuthenticated = true)
    (hadm : ctx.isAdmin = false) :
    ProtectedRoute ctx children true = Rendered.navigate "/dashboard" true ∧
    ProtectedRoute ctx children true ≠ Rendered.view children ∧
    App ctx ["admin"] = Rendered.navigate "/dashboard" true := by
  simp [App, ProtectedRoute, hl, ha, hadm]

/-- A logged-in user of role `user` who opens `/admin` is sent to `/dashboard`. -/
theorem protectedRoute_adminOnly_nonAdmin_witness :
    App
      (AuthProvider.value
        (AuthProvider.run "http://localhost:8001/api" [] []
          [AuthEvent.login "user@example.com" "user123"
            (Except.ok ⟨"jwt-1", ⟨"u1", "Demo User", "user@example.com", "user"⟩⟩),
           AuthEvent.lookupSettled
            (Except.ok ⟨"u1", "Demo User", "user@example.com", "user"⟩)]))
      ["admin"] = Rendered.navigate "/dashboard" true :=
  (protectedRoute_adminOnly_nonAdmin
    (AuthProvider.value
      (AuthProvider.run "http://localhost:8001/api" [] []
        [AuthEvent.login "user@example.com" "user123"
          (Except.ok ⟨"jwt-1", ⟨"u1", "Demo User", "user@example.com", "user"⟩⟩),
         AuthEvent.lookupSettled
          (Except.ok ⟨"u1", "Demo User", "user@example.com", "user"⟩)]))
    Page.AdminPage (by decide) (by decide) (by decide)).2.2

/-! ## Booking flow: proof upload -/

/-- C3: when no file is selected or the transaction reference is empty,
`handlePaymentUpload` only appends the error toast to the log: every other field of the
state is unchanged, no request is issued and no navigation happens, whatever the outcome
a request would have had. -/
theorem handlePaymentUpload_blocked (api : String) (s : BookingPageState)
    (result : Except AxiosError Unit) (h : s.paymentProof = none ∨ s.utrNumber = "") :
    BookingPage.handlePaymentUpload api s result =
      { s with log := s.log ++
        [Effect.toastError (JsVal.str "Please select payment proof and enter UTR number")] } ∧
    (BookingPage.handlePaymentUpload api s result).log.filter Effect.isRequest =
      s.log.filter Effect.isRequest ∧
    (BookingPage.handlePaymentUpload api s result).log.filter Effect.isNavigate =
      s.log.filter Effect.isNavigate := by
  have key : BookingPage.handlePaymentUpload api s result =
      { s with log := s.log ++
        [Effect.toastError (JsVal.str "Please select payment proof and enter UTR number")] } := by
    unfold BookingPage.handlePaymentUpload
    cases hp : s.paymentProof with
    | none => rfl
    | some file =>
      rcases h with h | h
      · rw [hp] at h
        cases h
      · simp [h]
  refine ⟨key, ?_, ?_⟩ <;> rw [key] <;>
    simp [List.filter_append, Effect.isRequest, Effect.isNavigate]

/-- A booking page with a file chosen, a booking id and an empty transaction reference:
the upload handler leaves one error toast and nothing else. -/
theorem handlePaymentUpload_blocked_witness :
    (BookingPage.handlePaymentUpload "http://localhost:8001/api"
      ⟨"ev1", none, false, false, some ⟨"proof.png"⟩, "", JsVal.str "b1", []⟩
      (Except.ok ())).log =
      [Effect.toastError (JsVal.str "Please select payment proof and enter UTR number")] :=
  (congrArg BookingPageState.log
    (handlePaymentUpload_blocked "http://localhost:8001/api"
      ⟨"ev1", none, false, false, some ⟨"proof.png"⟩, "", JsVal.str "b1", []⟩
      (Except.ok ()) (Or.inr rfl)).1)

/-! ## Session manager: logout, login, register, googleLogin -/

/-- C4: for every session state, after `logout` the token state and the user are
`null`, storage has no `token` entry and the default headers have no `Authorization`
entry; the requests in the log are those that were there before, also after the render
that follows (the effect takes its `else` branch). -/
theorem logout_clears_session (api : String) (s : AuthState) :
    (AuthProvider.logout s).token = none ∧
    (AuthProvider.logout s).user = none ∧
    (AuthProvider.logout s).localStorage.getItem "token" = none ∧
    (AuthProvider.logout s).headers.getItem "Authorization" = none ∧
    (AuthProvider.logout s).log.filter Effect.isRequest = s.log.filter Effect.isRequest ∧
    (AuthProvider.step api s AuthEvent.logout).token = none ∧
    (AuthProvider.step api s AuthEvent.logout).user = none ∧
    (AuthProvider.step api s AuthEvent.logout).localStorage.getItem "token" = none ∧
    (AuthProvider.step api s AuthEvent.logout).headers.getItem "Authorization" = none ∧
    (AuthProvider.step api s AuthEvent.logout).log.filter Effect.isRequest =
      s.log.filter Effect.isRequest := by
  have hlog : (AuthProvider.logout s).log.filter Effect.isRequest =
      s.log.filter Effect.isRequest := by
    simp [AuthProvider.logout, List.filter_append, Effect.isRequest]
  have hstep : AuthProvider.step api s AuthEvent.logout = AuthProvider.logout s ∨
      AuthProvider.step api s AuthEvent.logout =
        { AuthProvider.logout s with loading := false } := by
    simp only [AuthProvider.step, AuthProvider.rerender]
    split
    · exact Or.inl rfl
    · exact Or.inr rfl
  have h3 := Store.getItem_removeItem_self s.localStorage "token"
  have h4 := Store.getItem_removeItem_self s.headers "Authorization"
  refine ⟨rfl, rfl, h3, h4, hlog, ?_, ?_, ?_, ?_, ?_⟩ <;>
    rcases hstep with e | e <;> rw [e] <;> first | rfl | exact h3 | exact h4 | exact hlog

/-- C5 fails as stated: `login` does not look at the credential, so a successful
response whose `access_token` is the empty string makes `login` return `true` with an
empty credential persisted under `token`. -/
theorem login_empty_token_counterexample :
    (AuthProvider.login "http://localhost:8001/api"
      (AuthProvider.mount "http://localhost:8001/api" [] [])
      "user@example.com" "user123"
      (Except.ok ⟨"", ⟨"u1", "Demo User", "user@example.com", "user"⟩⟩)).1 = true ∧
    (AuthProvider.login "http://localhost:8001/api"
      (AuthProvider.mount "http://localhost:8001/api" [] [])
      "user@example.com" "user123"
      (Except.ok ⟨"", ⟨"u1", "Demo User", "user@example.com", "user"⟩⟩)).2.localStorage.getItem
        "token" = some "" := by
  decide

/-- C5, amended: for every successful response, `login` returns `true`; the credential
persisted under `token` and the token state equal the `access_token` of the response
(non-empty whenever that `access_token` is non-empty), the default `Authorization`
header is `Bearer ` followed by that credential, and the user state equals the
response's `user`. -/
theorem login_success_stores_session (api : String) (s : AuthState)
    (email password : String) (r : AuthResponse) :
    (AuthProvider.login api s email password (Except.ok r)).1 = true ∧
    (AuthProvider.login api s email password (Except.ok r)).2.localStorage.getItem "token" =
      some r.access_token ∧
    (AuthProvider.login api s email password (Except.ok r)).2.token = some r.access_token ∧
    (AuthProvider.login api s email password (Except.ok r)).2.headers.getItem
      "Authorization" = some ("Bearer " ++ r.access_token) ∧
    (AuthProvider.login api s email password (Except.ok r)).2.user = some r.user ∧
    (r.access_token ≠ "" →
      ∃ t, (AuthProvider.login api s email password (Except.ok r)).2.localStorage.getItem
        "token" = some t ∧ t ≠ "") := by
  have h1 := Store.getItem_setItem_self s.localStorage "token" r.access_token
  have h2 := Store.getItem_setItem_self s.headers "Authorization" ("Bearer " ++ r.access_token)
  exact ⟨rfl, h1, rfl, h2, rfl, fun hne => ⟨r.access_token, h1, hne⟩⟩

/-- A response carrying the credential `jwt-1` leaves a non-empty credential in
storage. -/
theorem login_success_stores_session_witness :
    ∃ t, (AuthProvider.login "http://localhost:8001/api"
      (AuthProvider.mount "http://localhost:8001/api" [] [])
      "user@example.com" "user123"
      (Except.ok ⟨"jwt-1", ⟨"u1", "Demo User", "user@example.com", "user"⟩⟩)).2.localStorage.getItem
        "token" = some t ∧ t ≠ "" :=
  (login_success_stores_session "http://localhost:8001/api"
    (AuthProvider.mount "http://localhost:8001/api" [] [])
    "user@example.com" "user123"
    ⟨"jwt-1", ⟨"u1", "Demo User", "user@example.com", "user"⟩⟩).2.2.2.2.2 (by decide)

/-- C6: when the backend request of `login`, `register` or `googleLogin` fails, the
operation returns `false` and leaves the token state, the user, the whole of storage
(so its `token` entry) and the whole of the default headers (so `Authorization`) as they
were before the call. -/
theorem auth_failure_leaves_session (api : String) (s : AuthState)
    (name email password : String) (popup : Except String String) (error : AxiosError) :
    ((AuthProvider.login api s email password (Except.error error)).1 = false ∧
      (AuthProvider.login api s email password (Except.error error)).2.token = s.token ∧
      (AuthProvider.login api s email password (Except.error error)).2.user = s.user ∧
      (AuthProvider.login api s email password (Except.error error)).2.localStorage =
        s.localStorage ∧
      (AuthProvider.login api s email password (Except.error error)).2.headers =
        s.headers) ∧
    ((AuthProvider.register api s name email password (Except.error error)).1 = false ∧
      (AuthProvider.register api s name email password (Except.error error)).2.token =
        s.token ∧
      (AuthProvider.register api s name email password (Except.error error)).2.user =
        s.user ∧
      (AuthProvider.register api s name email password (Except.error error)).2.localStorage =
        s.localStorage ∧
      (AuthProvider.register api s name email password (Except.error error)).2.headers =
        s.headers) ∧
    ((AuthProvider.googleLogin api s popup (Except.error error)).1 = false ∧
      (AuthProvider.googleLogin api s popup (Except.error error)).2.token = s.token ∧
      (AuthProvider.googleLogin api s popup (Except.error error)).2.user = s.user ∧
      (AuthProvider.googleLogin api s popup (Except.error error)).2.localStorage =
        s.localStorage ∧
      (AuthProvider.googleLogin api s popup (Except.error error)).2.headers =
        s.headers) := by
  refine ⟨⟨rfl, rfl, rfl, rfl, rfl⟩, ⟨rfl, rfl, rfl, rfl, rfl⟩, ?_⟩
  cases popup <;> exact ⟨rfl, rfl, rfl, rfl, rfl⟩

/-- C7: when the request of `login` or `register` fails, exactly one toast is added and
it is an error toast. Its message is the backend's detail whenever
`error.response?.data?.detail` is a message (a truthy value), and the fallback
`Login failed` / `Registration failed` whenever there is none (no response, no body, no
`detail`, or a `null` or empty one). -/
theorem auth_failure_message (api : String) (s : AuthState)
    (name email password : String) (error : AxiosError) :
    ((errorDetail error).truthy = true →
      (AuthProvider.login api s email password (Except.error error)).2.log =
        s.log ++ [Effect.request "POST" (api ++ "/auth/login")
            [("email", email), ("password", password)],
          Effect.toastError (errorDetail error)] ∧
      (AuthProvider.register api s name email password (Except.error error)).2.log =
        s.log ++ [Effect.request "POST" (api ++ "/auth/register")
            [("name", name), ("email", email), ("password", password)],
          Effect.toastError (errorDetail error)]) ∧
    ((errorDetail error).truthy = false →
      (AuthProvider.login api s email password (Except.error error)).2.log =
        s.log ++ [Effect.request "POST" (api ++ "/auth/login")
            [("email", email), ("password", password)],
          Effect.toastError (JsVal.str "Login failed")] ∧
      (AuthProvider.register api s name email password (Except.error error)).2.log =
        s.log ++ [Effect.request "POST" (api ++ "/auth/register")
            [("name", name), ("email", email), ("password", password)],
          Effect.toastError (JsVal.str "Registration failed")]) := by
  constructor <;> intro h <;>
    simp [AuthProvider.login, AuthProvider.register, JsVal.or, h]

/-- A login rejected with the detail `Invalid credentials` toasts that detail; a
registration that got no response toasts `Registration failed`. -/
theorem auth_failure_message_witness :
    (AuthProvider.login "http://localhost:8001/api"
      (AuthProvider.mount "http://localhost:8001/api" [] [])
      "user@example.com" "wrong"
      (Except.error ⟨some ⟨some ⟨JsVal.str "Invalid credentials"⟩⟩⟩)).2.log =
      [Effect.request "POST" "http://localhost:8001/api/auth/login"
          [("email", "user@example.com"), ("password", "wrong")],
        Effect.toastError (JsVal.str "Invalid credentials")] ∧
    (AuthProvider.register "http://localhost:8001/api"
      (AuthProvider.mount "http://localhost:8001/api" [] [])
      "Demo User" "user@example.com" "user123"
      (Except.error ⟨none⟩)).2.log =
      [Effect.request "POST" "http://localhost:8001/api/auth/register"
          [("name", "Demo User"), ("email", "user@example.com"), ("password", "user123")],
        Effect.toastError (JsVal.str "Registration failed")] :=
  ⟨((auth_failure_message "http://localhost:8001/api"
      (AuthProvider.mount "http://localhost:8001/api" [] [])
      "Demo User" "user@example.com" "wrong"
      ⟨some ⟨some ⟨JsVal.str "Invalid credentials"⟩⟩⟩).1 (by decide)).1,
   ((auth_failure_message "http://localhost:8001/api"
      (AuthProvider.mount "http://localhost:8001/api" [] [])
      "Demo User" "user@example.com" "user123"
      ⟨none⟩).2 (by decide)).2⟩

/-- C8 fails on the code: when the token exchange is rejected with the detail
`Invalid Google token`, `login` given the same rejection surfaces that detail, while
`googleLogin` returns `false` after surfacing the fixed text `Google login failed`. -/
theorem googleLogin_ignores_detail :
    errorDetail ⟨some ⟨some ⟨JsVal.str "Invalid Google token"⟩⟩⟩ =
      JsVal.str "Invalid Google token" ∧
    (AuthProvider.login "http://localhost:8001/api"
      (AuthProvider.mount "http://localhost:8001/api" [] [])
      "user@example.com" "user123"
      (Except.error ⟨some ⟨some ⟨JsVal.str "Invalid Google token"⟩⟩⟩)).2.log =
      [Effect.request "POST" "http://localhost:8001/api/auth/login"
          [("email", "user@example.com"), ("password", "user123")],
        Effect.toastError (JsVal.str "Invalid Google token")] ∧
    (AuthProvider.googleLogin "http://localhost:8001/api"
      (AuthProvider.mount "http://localhost:8001/api" [] [])
      (Except.ok "firebase-id-token")
      (Except.error ⟨some ⟨some ⟨JsVal.str "Invalid Google token"⟩⟩⟩)).1 = false ∧
    (AuthProvider.googleLogin "http://localhost:8001/api"
      (AuthProvider.mount "http://localhost:8001/api" [] [])
      (Except.ok "firebase-id-token")
      (Except.error ⟨some ⟨some ⟨JsVal.str "Invalid Google token"⟩⟩⟩)).2.log =
      [Effect.request "POST" "http://localhost:8001/api/auth/google"
          [("token", "firebase-id-token")],
        Effect.toastError (JsVal.str "Google login failed")] := by
  decide

/-! ## Session manager: reachable states and start-up -/

/-- C9 fails as stated: log in, log out while the lookup started by the new token is
still in flight, then let that lookup succeed. The user is present, so
`isAuthenticated` is `true`, but the token state is `null` and storage has no `token`. -/
theorem isAuthenticated_without_token_counterexample :
    (AuthProvider.value
      (AuthProvider.run "http://localhost:8001/api" [] []
        [AuthEvent.login "user@example.com" "user123"
          (Except.ok ⟨"jwt-1", ⟨"u1", "Demo User", "user@example.com", "user"⟩⟩),
         AuthEvent.logout,
         AuthEvent.lookupSettled
          (Except.ok ⟨"u1", "Demo User", "user@example.com", "user"⟩)])).isAuthenticated =
      true ∧
    (AuthProvider.run "http://localhost:8001/api" [] []
      [AuthEvent.login "user@example.com" "user123"
        (Except.ok ⟨"jwt-1", ⟨"u1", "Demo User", "user@example.com", "user"⟩⟩),
       AuthEvent.logout,
       AuthEvent.lookupSettled
        (Except.ok ⟨"u1", "Demo User", "user@example.com", "user"⟩)]).token = none ∧
    (AuthProvider.run "http://localhost:8001/api" [] []
      [AuthEvent.login "user@example.com" "user123"
        (Except.ok ⟨"jwt-1", ⟨"u1", "Demo User", "user@example.com", "user"⟩⟩),
       AuthEvent.logout,
       AuthEvent.lookupSettled
        (Except.ok ⟨"u1", "Demo User", "user@example.com", "user"⟩)]).localStorage.getItem
          "token" = none := by
  decide

/-- C9, amended: in every state reached from a mount by any sequence of lookup
outcomes, `login`, `register`, `googleLogin` (each succeeding or failing) and `logout`,
the exposed `isAuthenticated` is `true` exactly when the user is present, and `isAdmin`
is `true` exactly when the user's role equals `admin`. -/
theorem derived_flags_reachable (api : String) (storage headers : Store)
    (evs : List AuthEvent) :
    ((AuthProvider.value (AuthProvider.run api storage headers evs)).isAuthenticated = true ↔
      (AuthProvider.run api storage headers evs).user ≠ none) ∧
    ((AuthProvider.value (AuthProvider.run api storage headers evs)).isAdmin = true ↔
      ∃ u, (AuthProvider.run api storage headers evs).user = some u ∧ u.role = "admin") := by
  generalize AuthProvider.run api storage headers evs = s
  cases hu : s.user with
  | none => simp [AuthProvider.value, AuthProvider.isAuthenticated, AuthProvider.isAdmin, hu]
  | some u =>
    simp [AuthProvider.value, AuthProvider.isAuthenticated, AuthProvider.isAdmin, hu]

/-- C10 fails as stated: a `login` answered with an empty `access_token` persists the
empty string under `token`; on the next start with that storage the effect's test
`if (token)` fails, so no current-user lookup is issued, the `token` entry stays and
`loading` is cleared at once. -/
theorem startup_empty_credential_counterexample :
    (AuthProvider.login "http://localhost:8001/api"
      (AuthProvider.mount "http://localhost:8001/api" [] [])
      "user@example.com" "user123"
      (Except.ok ⟨"", ⟨"u1", "Demo User", "user@example.com", "user"⟩⟩)).2.localStorage =
      [("token", "")] ∧
    Store.getItem [("token", "")] "token" = some "" ∧
    lookupCount "http://localhost:8001/api"
      (AuthProvider.mount "http://localhost:8001/api" [("token", "")] []).log = 0 ∧
    (AuthProvider.mount "http://localhost:8001/api" [("token", "")] []).log = [] ∧
    (AuthProvider.mount "http://localhost:8001/api" [("token", "")] []).inflight = 0 ∧
    (AuthProvider.mount "http://localhost:8001/api" [("token", "")] []).loading = false ∧
    (AuthProvider.mount "http://localhost:8001/api" [("token", "")]
      []).localStorage.getItem "token" = some "" := by
  decide

/-- C10, amended: on start with a persisted, non-empty credential exactly one
current-user lookup is issued and awaited. If it fails, the state after the following
render is the logged-out state (token and user `null`, no `token` in storage, no
`Authorization` header) with `loading = false`; the log holds no error toast, still
exactly one lookup, and no lookup is in flight. -/
theorem startup_lookup_failure (api : String) (storage headers : Store) (tok : String)
    (error : AxiosError) (hs : storage.getItem "token" = some tok) (hne : tok ≠ "") :
    lookupCount api (AuthProvider.mount api storage headers).log = 1 ∧
    (AuthProvider.mount api storage headers).log.filter Effect.isRequest =
      [Effect.request "GET" (api ++ "/users/me") []] ∧
    (AuthProvider.mount api storage headers).inflight = 1 ∧
    (AuthProvider.step api (AuthProvider.mount api storage headers)
      (AuthEvent.lookupSettled (Except.error error))).token = none ∧
    (AuthProvider.step api (AuthProvider.mount api storage headers)
      (AuthEvent.lookupSettled (Except.error error))).user = none ∧
    (AuthProvider.step api (AuthProvider.mount api storage headers)
      (AuthEvent.lookupSettled (Except.error error))).localStorage.getItem "token" = none ∧
    (AuthProvider.step api (AuthProvider.mount api storage headers)
      (AuthEvent.lookupSettled (Except.error error))).headers.getItem "Authorization" =
        none ∧
    (AuthProvider.step api (AuthProvider.mount api storage headers)
      (AuthEvent.lookupSettled (Except.error error))).loading = false ∧
    (AuthProvider.step api (AuthProvider.mount api storage headers)
      (AuthEvent.lookupSettled (Except.error error))).log.filter Effect.isToastError = [] ∧
    lookupCount api (AuthProvider.step api (AuthProvider.mount api storage headers)
      (AuthEvent.lookupSettled (Except.error error))).log = 1 ∧
    (AuthProvider.step api (AuthProvider.mount api storage headers)
      (AuthEvent.lookupSettled (Except.error error))).log.filter Effect.isRequest =
        [Effect.request "GET" (api ++ "/users/me") []] ∧
    (AuthProvider.step api (AuthProvider.mount api storage headers)
      (AuthEvent.lookupSettled (Except.error error))).inflight = 0 := by
  have hm : AuthProvider.mount api storage headers =
      { user := none
        loading := true
        token := some tok
        localStorage := storage
        headers := headers.setItem "Authorization" ("Bearer " ++ tok)
        log := [Effect.request "GET" (api ++ "/users/me") []]
        inflight := 1 } := by
    simp [AuthProvider.mount, AuthProvider.tokenEffect, AuthProvider.fetchUserInfoStart, hs, hne]
  have h3 := Store.getItem_removeItem_self storage "token"
  have h4 := Store.getItem_removeItem_self
    (headers.setItem "Authorization" ("Bearer " ++ tok)) "Authorization"
  rw [hm]
  simp [lookupCount, AuthProvider.step, AuthProvider.rerender, AuthProvider.fetchUserInfoSettle,
    AuthProvider.logout, AuthProvider.tokenEffect, Effect.isRequest, Effect.isToastError,
    List.filter_cons, h3, h4]

/-- A start with `jwt-1` persisted whose lookup is rejected: one lookup, a console
message and the log-out toast. -/
theorem startup_lookup_failure_witness :
    (AuthProvider.step "http://localhost:8001/api"
      (AuthProvider.mount "http://localhost:8001/api" [("token", "jwt-1")]
        [("Accept", "application/json")])
      (AuthEvent.lookupSettled
        (Except.error ⟨some ⟨some ⟨JsVal.str "Could not validate credentials"⟩⟩⟩))).log =
      [Effect.request "GET" "http://localhost:8001/api/users/me" [],
        Effect.consoleError "Failed to fetch user info:",
        Effect.toastSuccess (JsVal.str "Logged out successfully")] ∧
    lookupCount "http://localhost:8001/api"
      (AuthProvider.step "http://localhost:8001/api"
        (AuthProvider.mount "http://localhost:8001/api" [("token", "jwt-1")]
          [("Accept", "application/json")])
        (AuthEvent.lookupSettled
          (Except.error ⟨some ⟨some ⟨JsVal.str "Could not validate credentials"⟩⟩⟩))).log = 1 :=
  ⟨by decide,
   (startup_lookup_failure "http://localhost:8001/api" [("token", "jwt-1")]
      [("Accept", "application/json")] "jwt-1"
      ⟨some ⟨some ⟨JsVal.str "Could not validate credentials"⟩⟩⟩
      (by decide) (by decide)).2.2.2.2.2.2.2.2.2.1⟩

/-! ## Admin bookings tab -/

/-- A rendered row pairs a held booking with the buttons of its actions cell. -/
theorem AdminBookingsTab.row_of_rows (s : AdminBookingsTabState) (row : Nat)
    (booking : Booking) (actions : List RowAction)
    (h : (AdminBookingsTab.rows s).get? row = some (booking, actions)) :
    booking ∈ s.bookings ∧ actions = AdminBookingsTab.rowActions booking := by
  have hm := List.get?_mem h
  unfold AdminBookingsTab.rows at hm
  by_cases hl : s.loading = true
  · simp [hl] at hm
  · simp [hl] at hm
    obtain ⟨b, hb, h1, h2⟩ := hm
    subst h1
    exact ⟨hb, h2.symm⟩

/-- The approve and reject buttons are in the actions cell exactly for a pending
booking. -/
theorem AdminBookingsTab.rowActions_iff (booking : Booking) :
    (RowAction.approve ∈ AdminBookingsTab.rowActions booking ↔ booking.status = "pending") ∧
    (RowAction.reject ∈ AdminBookingsTab.rowActions booking ↔ booking.status = "pending") := by
  unfold AdminBookingsTab.rowActions
  by_cases hp : booking.status = "pending"
  · simp [hp]
  · cases hq : booking.payment_proof_base64 with
    | none => simp [hp]
    | some proof => by_cases hne : proof = "" <;> simp [hp, hne]

/-- C11: in every row that `AdminBookingsTab` renders, the approve action is offered if
and only if the booking's status equals `pending`, and likewise the reject action. -/
theorem approve_reject_offered_iff_pending (s : AdminBookingsTabState) (booking : Booking)
    (actions : List RowAction) (h : (booking, actions) ∈ AdminBookingsTab.rows s) :
    (RowAction.approve ∈ actions ↔ booking.status = "pending") ∧
    (RowAction.reject ∈ actions ↔ booking.status = "pending") := by
  obtain ⟨row, hrow⟩ := List.get?_of_mem h
  obtain ⟨_, hact⟩ := AdminBookingsTab.row_of_rows s row booking actions hrow
  rw [hact]
  exact AdminBookingsTab.rowActions_iff booking

/-- A list holding a pending booking with proof and an approved one: the first row
offers approve and reject, the second offers neither. -/
theorem approve_reject_offered_iff_pending_witness :
    ((RowAction.approve ∈ [RowAction.approve, RowAction.reject, RowAction.viewProof] ↔
        "pending" = "pending") ∧
      (RowAction.reject ∈ [RowAction.approve, RowAction.reject, RowAction.viewProof] ↔
        "pending" = "pending")) ∧
    ((RowAction.approve ∈ ([] : List RowAction) ↔ "approved" = "pending") ∧
      (RowAction.reject ∈ ([] : List RowAction) ↔ "approved" = "pending")) :=
  ⟨approve_reject_offered_iff_pending
      (AdminBookingsTab.run "http://localhost:8001/api"
        [AdminBookingsEvent.fetchSettled (Except.ok
          [⟨"b1", "u1", "single", "pending", some "UTR12345", some "data:image/png", "2025-01-01"⟩,
           ⟨"b2", "u1", "single", "approved", none, none, "2025-01-02"⟩])])
      ⟨"b1", "u1", "single", "pending", some "UTR12345", some "data:image/png", "2025-01-01"⟩
      [RowAction.approve, RowAction.reject, RowAction.viewProof] (by decide),
   approve_reject_offered_iff_pending
      (AdminBookingsTab.run "http://localhost:8001/api"
        [AdminBookingsEvent.fetchSettled (Except.ok
          [⟨"b1", "u1", "single", "pending", some "UTR12345", some "data:image/png", "2025-01-01"⟩,
           ⟨"b2", "u1", "single", "approved", none, none, "2025-01-02"⟩])])
      ⟨"b2", "u1", "single", "approved", none, none, "2025-01-02"⟩
      [] (by decide)⟩

/-- C12: whatever the state of `AdminBookingsTab` and whatever happens next, every
status-update request that the step adds to the log targets a booking of the list held
at that moment whose status is `pending`, and carries `approved` or `rejected` (with
empty notes); a click on any button of a row whose booking is not held as `pending`
adds no request at all. -/
theorem status_update_targets_pending (api : String) (s : AdminBookingsTabState)
    (ev : AdminBookingsEvent) :
    (∃ added, (AdminBookingsTab.step api s ev).log = s.log ++ added ∧
      ∀ url body, Effect.request "PUT" url body ∈ added →
        ∃ b, b ∈ s.bookings ∧ b.status = "pending" ∧
          url = api ++ "/bookings/" ++ b.id ++ "/status" ∧
          (body = [("status", "approved"), ("admin_notes", "")] ∨
            body = [("status", "rejected"), ("admin_notes", "")])) ∧
    (∀ row action b acts, ev = AdminBookingsEvent.click row action →
      (AdminBookingsTab.rows s).get? row = some (b, acts) → b.status ≠ "pending" →
      (AdminBookingsTab.step api s ev).log.filter Effect.isRequest =
        s.log.filter Effect.isRequest) := by
  constructor
  · cases ev with
    | fetchSettled result =>
      cases result with
      | ok data => exact ⟨[], by simp [AdminBookingsTab.step, AdminBookingsTab.fetchBookingsSettle]⟩
      | error e =>
        exact ⟨[Effect.toastError (JsVal.str "Failed to fetch bookings")],
          by simp [AdminBookingsTab.step, AdminBookingsTab.fetchBookingsSettle]⟩
    | updateSettled result =>
      cases result with
      | ok u =>
        exact ⟨[Effect.toastSuccess (JsVal.str "Booking status updated successfully"),
            Effect.request "GET" (api ++ "/bookings") []],
          by simp [AdminBookingsTab.step, AdminBookingsTab.updateBookingStatusSettle,
            AdminBookingsTab.fetchBookingsStart]⟩
      | error e =>
        exact ⟨[Effect.toastError (JsVal.str "Failed to update booking status")],
          by simp [AdminBookingsTab.step, AdminBookingsTab.updateBookingStatusSettle]⟩
    | click row action =>
      cases hrow : (AdminBookingsTab.rows s).get? row with
      | none => exact ⟨[], by simp only [AdminBookingsTab.step, hrow]; simp⟩
      | some x =>
        obtain ⟨b, acts⟩ := x
        obtain ⟨hb, hact⟩ := AdminBookingsTab.row_of_rows s row b acts hrow
        by_cases hin : action ∈ acts
        · rw [hact] at hin
          cases action with
          | approve =>
            have hp := (AdminBookingsTab.rowActions_iff b).1.1 hin
            refine ⟨[Effect.request "PUT" (api ++ "/bookings/" ++ b.id ++ "/status")
              [("status", "approved"), ("admin_notes", "")]], ?_, ?_⟩
            · simp only [AdminBookingsTab.step, hrow]
              simp [hact, hin, AdminBookingsTab.onClick,
                AdminBookingsTab.updateBookingStatusStart]
            · intro url body hmem
              simp at hmem
              exact ⟨b, hb, hp, hmem.1, Or.inl hmem.2⟩
          | reject =>
            have hp := (AdminBookingsTab.rowActions_iff b).2.1 hin
            refine ⟨[Effect.request "PUT" (api ++ "/bookings/" ++ b.id ++ "/status")
              [("status", "rejected"), ("admin_notes", "")]], ?_, ?_⟩
            · simp only [AdminBookingsTab.step, hrow]
              simp [hact, hin, AdminBookingsTab.onClick,
                AdminBookingsTab.updateBookingStatusStart]
            · intro url body hmem
              simp at hmem
              exact ⟨b, hb, hp, hmem.1, Or.inr hmem.2⟩
          | viewProof =>
            refine ⟨[Effect.windowOpen (b.payment_proof_base64.getD "") "_blank"], ?_, ?_⟩
            · simp only [AdminBookingsTab.step, hrow]
              simp [hact, hin, AdminBookingsTab.onClick]
            · intro url body hmem
              simp at hmem
        · exact ⟨[], by simp only [AdminBookingsTab.step, hrow]; simp [hin]⟩
  · intro row action b acts hev hrow hnp
    subst hev
    obtain ⟨_, hact⟩ := AdminBookingsTab.row_of_rows s row b acts hrow
    by_cases hin : action ∈ acts
    · rw [hact] at hin
      cases action with
      | approve => exact absurd ((AdminBookingsTab.rowActions_iff b).1.1 hin) hnp
      | reject => exact absurd ((AdminBookingsTab.rowActions_iff b).2.1 hin) hnp
      | viewProof =>
        simp only [AdminBookingsTab.step, hrow]
        simp [hact, hin, AdminBookingsTab.onClick, List.filter_append, Effect.isRequest]
    · simp only [AdminBookingsTab.step, hrow]
      simp [hin]


/-- A list holding a pending and an approved booking: the reject button of the approved
row does not exist, so a click there sends nothing. -/
theorem status_update_targets_pending_witness :
    (AdminBookingsTab.step "http://localhost:8001/api"
      (AdminBookingsTab.run "http://localhost:8001/api"
        [AdminBookingsEvent.fetchSettled (Except.ok
          [⟨"b1", "u1", "single", "pending", some "UTR12345", some "data:image/png", "2025-01-01"⟩,
           ⟨"b2", "u1", "single", "approved", none, none, "2025-01-02"⟩])])
      (AdminBookingsEvent.click 1 RowAction.reject)).log.filter Effect.isRequest =
    (AdminBookingsTab.run "http://localhost:8001/api"
      [AdminBookingsEvent.fetchSettled (Except.ok
        [⟨"b1", "u1", "single", "pending", some "UTR12345", some "data:image/png", "2025-01-01"⟩,
         ⟨"b2", "u1", "single", "approved", none, none, "2025-01-02"⟩])]).log.filter
      Effect.isRequest :=
  (status_update_targets_pending "http://localhost:8001/api"
    (AdminBookingsTab.run "http://localhost:8001/api"
      [AdminBookingsEvent.fetchSettled (Except.ok
        [⟨"b1", "u1", "single", "pending", some "UTR12345", some "data:image/png", "2025-01-01"⟩,
         ⟨"b2", "u1", "single", "approved", none, none, "2025-01-02"⟩])])
    (AdminBookingsEvent.click 1 RowAction.reject)).2 1 RowAction.reject
    ⟨"b2", "u1", "single", "approved", none, none, "2025-01-02"⟩ [] rfl (by decide) (by decide)

/-! ## Create-event form -/

/-- C13: the requests that one submission of the create-event form adds to the log are
the creation request, followed by the QR upload addressed to the id of the creation
response exactly when the creation succeeded and a QR file is selected; two requests are
sent if and only if both hold, and a failed creation is followed by no request. -/
theorem qr_upload_iff_created_and_file (api : String) (parseFloat parseInt : String → String)
    (s : CreateEventFormState) (created : Except AxiosError JsVal)
    (uploaded : Except AxiosError Unit) :
    (CreateEventForm.handleSubmit api parseFloat parseInt s created uploaded).log.filter
        Effect.isRequest =
      s.log.filter Effect.isRequest ++
        (Effect.request "POST" (api ++ "/events")
            (CreateEventForm.createBody parseFloat parseInt s.formData) ::
          (match created, s.qrFile with
            | Except.ok id, some file =>
              [Effect.request "POST" (api ++ "/events/" ++ id.toStr ++ "/qr-code")
                [("file", file.name)]]
            | _, _ => [])) ∧
    (((CreateEventForm.handleSubmit api parseFloat parseInt s created uploaded).log.filter
        Effect.isRequest).length = (s.log.filter Effect.isRequest).length + 2 ↔
      (∃ id, created = Except.ok id) ∧ ∃ file, s.qrFile = some file) ∧
    (∀ error, created = Except.error error →
      (CreateEventForm.handleSubmit api parseFloat parseInt s created uploaded).log.filter
          Effect.isRequest =
        s.log.filter Effect.isRequest ++
          [Effect.request "POST" (api ++ "/events")
            (CreateEventForm.createBody parseFloat parseInt s.formData)]) := by
  have key : (CreateEventForm.handleSubmit api parseFloat parseInt s created uploaded).log.filter
        Effect.isRequest =
      s.log.filter Effect.isRequest ++
        (Effect.request "POST" (api ++ "/events")
            (CreateEventForm.createBody parseFloat parseInt s.formData) ::
          (match created, s.qrFile with
            | Except.ok id, some file =>
              [Effect.request "POST" (api ++ "/events/" ++ id.toStr ++ "/qr-code")
                [("file", file.name)]]
            | _, _ => [])) := by
    cases created with
    | error e => simp [CreateEventForm.handleSubmit, List.filter_append, Effect.isRequest]
    | ok id =>
      cases hq : s.qrFile with
      | none => simp [CreateEventForm.handleSubmit, hq, List.filter_append, Effect.isRequest]
      | some file =>
        cases uploaded <;>
          simp [CreateEventForm.handleSubmit, hq, List.filter_append, Effect.isRequest]
  refine ⟨key, ?_, ?_⟩
  · rw [key]
    cases created with
    | error e => simp
    | ok id =>
      cases hq : s.qrFile with
      | none => simp
      | some file => simp
  · intro error he
    rw [key, he]

/-- A form with a QR file chosen whose creation is answered with id `e9`: the creation
request, then the upload to `/events/e9/qr-code`; the same form whose creation is
rejected sends the creation request alone. -/
theorem qr_upload_iff_created_and_file_witness :
    (CreateEventForm.handleSubmit "http://localhost:8001/api" id id
      ⟨⟨"Morning Flow", "Gentle start", "2025-01-01", "07:00", "500", "online", "20", ""⟩,
        some ⟨"qr.png"⟩, false, [], 0⟩
      (Except.ok (JsVal.str "e9")) (Except.ok ())).log.filter Effect.isRequest =
      [Effect.request "POST" "http://localhost:8001/api/events"
          [("title", "Morning Flow"), ("description", "Gentle start"), ("date", "2025-01-01"),
           ("time", "07:00"), ("price", "500"), ("delivery_mode", "online"),
           ("capacity", "20"), ("session_link", ""), ("is_online", "true")],
        Effect.request "POST" "http://localhost:8001/api/events/e9/qr-code"
          [("file", "qr.png")]] ∧
    (CreateEventForm.handleSubmit "http://localhost:8001/api" id id
      ⟨⟨"Morning Flow", "Gentle start", "2025-01-01", "07:00", "500", "online", "20", ""⟩,
        some ⟨"qr.png"⟩, false, [], 0⟩
      (Except.error ⟨none⟩) (Except.ok ())).log.filter Effect.isRequest =
      [Effect.request "POST" "http://localhost:8001/api/events"
          [("title", "Morning Flow"), ("description", "Gentle start"), ("date", "2025-01-01"),
           ("time", "07:00"), ("price", "500"), ("delivery_mode", "online"),
           ("capacity", "20"), ("session_link", ""), ("is_online", "true")]] :=
  ⟨(qr_upload_iff_created_and_file "http://localhost:8001/api" id id
      ⟨⟨"Morning Flow", "Gentle start", "2025-01-01", "07:00", "500", "online", "20", ""⟩,
        some ⟨"qr.png"⟩, false, [], 0⟩
      (Except.ok (JsVal.str "e9")) (Except.ok ())).1,
   (qr_upload_iff_created_and_file "http://localhost:8001/api" id id
      ⟨⟨"Morning Flow", "Gentle start", "2025-01-01", "07:00", "500", "online", "20", ""⟩,
        some ⟨"qr.png"⟩, false, [], 0⟩
      (Except.error ⟨none⟩) (Except.ok ())).2.2 ⟨none⟩ rfl⟩

/-! ## Admin dashboard tab and admin page -/

/-- C14: for a snapshot whose `recent_bookings` has length `n`, `AdminDashboardTab`
renders exactly `min 5 n` recent-booking entries, and they are the entries of the first
`min 5 n` bookings of the list, in the order of the list. -/
theorem recentBookings_first_five (data : DashboardData) :
    (AdminDashboardTab.entries (AdminDashboardTab.recentBookings data)).length =
      min 5 data.recent_bookings.length ∧
    AdminDashboardTab.entries (AdminDashboardTab.recentBookings data) =
      (data.recent_bookings.take (min 5 data.recent_bookings.length)).map
        AdminDashboardTab.recentRow ∧
    (AdminDashboardTab.entries (AdminDashboardTab.recentBookings data)).map
        RecentBookingRow.key =
      (data.recent_bookings.take (min 5 data.recent_bookings.length)).map Booking.id := by
  have htake : data.recent_bookings.take (min 5 data.recent_bookings.length) =
      data.recent_bookings.take 5 := by
    rw [List.take_eq_take]
    simp
  have hent : AdminDashboardTab.entries (AdminDashboardTab.recentBookings data) =
      (data.recent_bookings.take 5).map AdminDashboardTab.recentRow := by
    unfold AdminDashboardTab.recentBookings
    by_cases h0 : data.recent_bookings.length = 0
    · have hnil : data.recent_bookings = [] := List.length_eq_zero.mp h0
      simp [hnil, AdminDashboardTab.entries]
    · simp [h0, AdminDashboardTab.entries]
  rw [htake, hent]
  refine ⟨by simp, rfl, ?_⟩
  simp [List.map_map, Function.comp_def, AdminDashboardTab.recentRow]


/-- C15 fails as stated: right after the mount, while the dashboard fetch is awaited,
`AdminPage` is in its loading state with `activeTab = 'dashboard'`, renders the
placeholder, and mounts none of the five tab contents. -/
theorem adminPage_loading_counterexample :
    (AdminPage.run "http://localhost:8001/api" []).activeTab = "dashboard" ∧
    (AdminPage.run "http://localhost:8001/api" []).loading = true ∧
    (AdminPage.mounted (AdminPage.run "http://localhost:8001/api" [])).length = 0 := by
  decide

/-- Every event keeps `activeTab` among the ids of `tabs`. -/
theorem AdminPage.step_activeTab (s : AdminPageState) (ev : AdminPageEvent)
    (h : s.activeTab ∈ AdminPage.tabs.map Prod.fst) :
    (AdminPage.step s ev).activeTab ∈ AdminPage.tabs.map Prod.fst := by
  cases ev with
  | fetchSettled result =>
    cases result <;> exact h
  | clickTab index =>
    unfold AdminPage.step AdminPage.clickTab
    by_cases hl : s.loading = true
    · simp only [hl, if_true]
      exact h
    · simp only [hl]
      cases ht : AdminPage.tabs.get? index with
      | none => exact h
      | some tab => exact List.mem_map_of_mem Prod.fst (List.get?_mem ht)

/-- Every sequence of events keeps `activeTab` among the ids of `tabs`. -/
theorem AdminPage.foldl_activeTab (evs : List AdminPageEvent) (s : AdminPageState)
    (h : s.activeTab ∈ AdminPage.tabs.map Prod.fst) :
    (evs.foldl AdminPage.step s).activeTab ∈ AdminPage.tabs.map Prod.fst := by
  induction evs generalizing s with
  | nil => exact h
  | cons ev rest ih => exact ih (AdminPage.step s ev) (AdminPage.step_activeTab s ev h)

/-- C15, amended: in every state reached from a mount of `AdminPage` by fetch outcomes
and clicks on tab buttons, `activeTab` is one of `dashboard`, `events`, `bookings`,
`users`, `settings`; while the page is loading no tab content is mounted, and once
`loading` is `false` exactly one of the five tab contents is mounted. -/
theorem adminPage_one_tab_mounted (api : String) (evs : List AdminPageEvent) :
    (AdminPage.run api evs).activeTab ∈
      ["dashboard", "events", "bookings", "users", "settings"] ∧
    ((AdminPage.run api evs).loading = true → AdminPage.mounted (AdminPage.run api evs) = []) ∧
    ((AdminPage.run api evs).loading = false →
      (AdminPage.mounted (AdminPage.run api evs)).length = 1) := by
  have hmem : (AdminPage.run api evs).activeTab ∈ AdminPage.tabs.map Prod.fst :=
    AdminPage.foldl_activeTab evs (AdminPage.mount api)
      (by show "dashboard" ∈ AdminPage.tabs.map Prod.fst; decide)
  generalize AdminPage.run api evs = s at hmem
  refine ⟨hmem, ?_, ?_⟩
  · intro hl
    simp [AdminPage.mounted, hl]
  · intro hl
    simp only [AdminPage.tabs, List.map, List.mem_cons, List.mem_singleton] at hmem
    rcases hmem with h | h | h | h | h | h
    · simp [AdminPage.mounted, hl, h]
    · simp [AdminPage.mounted, hl, h]
    · simp [AdminPage.mounted, hl, h]
    · simp [AdminPage.mounted, hl, h]
    · simp [AdminPage.mounted, hl, h]
    · cases h

/-- An admin page whose fetch failed and whose third tab button was clicked shows
the bookings tab and nothing else. -/
theorem adminPage_one_tab_mounted_witness :
    (AdminPage.mounted (AdminPage.run "http://localhost:8001/api"
      [AdminPageEvent.fetchSettled (Except.error ⟨none⟩), AdminPageEvent.clickTab 2])).length =
      1 :=
  (adminPage_one_tab_mounted "http://localhost:8001/api"
    [AdminPageEvent.fetchSettled (Except.error ⟨none⟩), AdminPageEvent.clickTab 2]).2.2
    (by decide)

/-! ## User dashboard -/

/-- C16: the three counts of the stats cards depend on the held booking list alone, and
after a successful fetch of the list `data` they are its length, the number of its
entries whose status is `approved`, and the number whose status is `pending`. -/
theorem dashboard_counts (s : DashboardPageState) (data : List Booking) :
    (∀ t : DashboardPageState, t.bookings = s.bookings →
      DashboardPage.stats t = DashboardPage.stats s) ∧
    (DashboardPage.fetchBookingsSettle s (Except.ok data)).bookings = data ∧
    (DashboardPage.stats (DashboardPage.fetchBookingsSettle s (Except.ok data))).total =
      data.length ∧
    (DashboardPage.stats (DashboardPage.fetchBookingsSettle s (Except.ok data))).approved =
      data.countP (fun b => decide (b.status = "approved")) ∧
    (DashboardPage.stats (DashboardPage.fetchBookingsSettle s (Except.ok data))).pending =
      data.countP (fun b => decide (b.status = "pending")) := by
  refine ⟨?_, rfl, rfl, ?_, ?_⟩
  · intro t ht
    simp [DashboardPage.stats, ht]
  · rw [List.countP_eq_length_filter]
    rfl
  · rw [List.countP_eq_length_filter]
    rfl

/-- A fetched list of one approved, one pending and one rejected booking gives the
counts 3, 1 and 1, which a state with the same list and another log shares. -/
theorem dashboard_counts_witness :
    DashboardPage.stats
      ⟨[⟨"b1", "u1", "single", "approved", some "UTR1", none, "2025-01-01"⟩,
        ⟨"b2", "u1", "single", "pending", none, none, "2025-01-02"⟩,
        ⟨"b3", "u1", "single", "rejected", some "UTR3", none, "2025-01-03"⟩], false, []⟩ =
    DashboardPage.stats
      (DashboardPage.fetchBookingsSettle (DashboardPage.mount "http://localhost:8001/api")
        (Except.ok
          [⟨"b1", "u1", "single", "approved", some "UTR1", none, "2025-01-01"⟩,
           ⟨"b2", "u1", "single", "pending", none, none, "2025-01-02"⟩,
           ⟨"b3", "u1", "single", "rejected", some "UTR3", none, "2025-01-03"⟩])) :=
  (dashboard_counts
    (DashboardPage.fetchBookingsSettle (DashboardPage.mount "http://localhost:8001/api")
      (Except.ok
        [⟨"b1", "u1", "single", "approved", some "UTR1", none, "2025-01-01"⟩,
         ⟨"b2", "u1", "single", "pending", none, none, "2025-01-02"⟩,
         ⟨"b3", "u1", "single", "rejected", some "UTR3", none, "2025-01-03"⟩]))
    []).1
    ⟨[⟨"b1", "u1", "single", "approved", some "UTR1", none, "2025-01-01"⟩,
      ⟨"b2", "u1", "single", "pending", none, none, "2025-01-02"⟩,
      ⟨"b3", "u1", "single", "rejected", some "UTR3", none, "2025-01-03"⟩], false, []⟩
    rfl

/-! ## Views that fetch on mount -/

/-- C17: in each of the seven views that fetch on mount, a mount followed by the failure
of its fetch ends with `loading = false`, the data at its initial value (empty list or
`null`), and a log of exactly the one request and the one error toast of the `catch`
block: no second fetch. Each fetch function is total: its `catch` consumes the
rejection and nothing is thrown past it. -/
theorem mount_fetch_failure (api pathname : String) (error : AxiosError) :
    ClassesPage.fetchEventsSettle (ClassesPage.mount api) (Except.error error) =
      { events := [], loading := false,
        log := [Effect.request "GET" (api ++ "/events") [],
          Effect.toastError (JsVal.str "Failed to fetch events")] } ∧
    BookingPage.fetchEventSettle (BookingPage.mount api pathname true) (Except.error error) =
      { BookingPage.init pathname with
        loading := false
        log := [Effect.request "GET" (api ++ "/events/" ++ BookingPage.eventIdOfPath pathname) [],
          Effect.toastError (JsVal.str "Failed to fetch event details")] } ∧
    DashboardPage.fetchBookingsSettle (DashboardPage.mount api) (Except.error error) =
      { bookings := [], loading := false,
        log := [Effect.request "GET" (api ++ "/bookings") [],
          Effect.toastError (JsVal.str "Failed to fetch bookings")] } ∧
    AdminPage.fetchDashboardDataSettle (AdminPage.mount api) (Except.error error) =
      { activeTab := "dashboard", dashboardData := none, loading := false,
        log := [Effect.request "GET" (api ++ "/admin/dashboard") [],
          Effect.toastError (JsVal.str "Failed to fetch dashboard data")] } ∧
    AdminEventsTab.fetchEventsSettle (AdminEventsTab.mount api) (Except.error error) =
      { events := [], loading := false, showCreateForm := false,
        log := [Effect.request "GET" (api ++ "/events") [],
          Effect.toastError (JsVal.str "Failed to fetch events")] } ∧
    AdminBookingsTab.fetchBookingsSettle (AdminBookingsTab.mount api) (Except.error error) =
      { bookings := [], loading := false,
        log := [Effect.request "GET" (api ++ "/bookings") [],
          Effect.toastError (JsVal.str "Failed to fetch bookings")] } ∧
    AdminUsersTab.fetchUsersSettle (AdminUsersTab.mount api) (Except.error error) =
      { users := [], loading := false,
        log := [Effect.request "GET" (api ++ "/users") [],
          Effect.toastError (JsVal.str "Failed to fetch users")] } := by
  refine ⟨rfl, ?_, rfl, rfl, rfl, rfl, rfl⟩
  simp [BookingPage.fetchEventSettle, BookingPage.mount, BookingPage.mountEffect,
    BookingPage.fetchEventStart, BookingPage.init]


/-! ## Booking flow: booking creation -/

/-- C18 fails on the code: the path `/book/evt-1/` matches the route `/book/:id` with
`id = 'evt-1'` and mounts `BookingPage`, but `pathname.split('/').pop()` is the empty
string there, so the event is fetched from `/events/` and the booking-creation request
carries `event_id = ''`. Without the trailing slash the id is `evt-1`. -/
theorem booking_event_id_trailing_slash :
    bookRouteId "/book/evt-1/" = some "evt-1" ∧
    App ⟨some ⟨"u1", "Demo User", "user@example.com", "user"⟩, false, true, false⟩
      (pathSegments "/book/evt-1/") = Rendered.view Page.BookingPage ∧
    BookingPage.eventIdOfPath "/book/evt-1/" = "" ∧
    (BookingPage.handleBooking "http://localhost:8001/api"
      (BookingPage.fetchEventSettle
        (BookingPage.mount "http://localhost:8001/api" "/book/evt-1/" true)
        (Except.ok ⟨"evt-1", "Morning Flow", "Gentle start", "2025-01-01", "07:00", 500,
          "online", 20, none⟩))
      (Except.ok (JsVal.str "b1"))).log =
      [Effect.request "GET" "http://localhost:8001/api/events/" [],
        Effect.request "POST" "http://localhost:8001/api/bookings"
          [("event_id", ""), ("booking_type", "single")],
        Effect.toastSuccess (JsVal.str
          "Booking created successfully! Please upload payment proof.")] ∧
    bookRouteId "/book/evt-1" = some "evt-1" ∧
    BookingPage.eventIdOfPath "/book/evt-1" = "evt-1" := by
  decide

/-- C19 fails as stated: `handleBooking` stores whatever `id` the response carries, and
the stage switch tests its truthiness, so after a successful response whose `id` is the
empty string the `Book This Class` button is still shown. -/
theorem booking_stage_falsy_id_counterexample :
    (BookingPage.handleBooking "http://localhost:8001/api"
      (BookingPage.fetchEventSettle
        (BookingPage.mount "http://localhost:8001/api" "/book/evt-1" true)
        (Except.ok ⟨"evt-1", "Morning Flow", "Gentle start", "2025-01-01", "07:00", 500,
          "online", 20, none⟩))
      (Except.ok (JsVal.str ""))).bookingId = JsVal.str "" ∧
    BookingPage.render
      (BookingPage.handleBooking "http://localhost:8001/api"
        (BookingPage.fetchEventSettle
          (BookingPage.mount "http://localhost:8001/api" "/book/evt-1" true)
          (Except.ok ⟨"evt-1", "Morning Flow", "Gentle start", "2025-01-01", "07:00", 500,
            "online", 20, none⟩))
        (Except.ok (JsVal.str ""))) =
      BookingView.details
        ⟨"evt-1", "Morning Flow", "Gentle start", "2025-01-01", "07:00", 500, "online", 20,
          none⟩
        (BookingStage.bookButton false) := by
  decide

/-- C19, amended: on a page that shows its event, after `handleBooking` completes on a
successful response the `bookingId` state equals the `id` of the response, and the
upload form is shown in place of the button exactly when that `id` is truthy. Before any
successful creation the upload form is not shown: `bookingId` starts as `null`, a failed
creation and the event fetch leave it as it is, and with `bookingId = null` the render is
never the upload form. -/
theorem booking_stage_after_creation (api pathname : String) (s : BookingPageState)
    (event : Event) (id : JsVal) (error : AxiosError)
    (fetched : Except AxiosError Event)
    (he : s.event = some event) (hl : s.loading = false) :
    (BookingPage.handleBooking api s (Except.ok id)).bookingId = id ∧
    (id.truthy = true →
      BookingPage.render (BookingPage.handleBooking api s (Except.ok id)) =
        BookingView.details event BookingStage.uploadForm) ∧
    (id.truthy = false →
      BookingPage.render (BookingPage.handleBooking api s (Except.ok id)) =
        BookingView.details event (BookingStage.bookButton false)) ∧
    (BookingPage.mount api pathname true).bookingId = JsVal.null ∧
    (BookingPage.fetchEventSettle s fetched).bookingId = s.bookingId ∧
    (BookingPage.handleBooking api s (Except.error error)).bookingId = s.bookingId ∧
    (s.bookingId = JsVal.null →
      BookingPage.render s =
        BookingView.details event (BookingStage.bookButton s.bookingLoading)) := by
  refine ⟨?_, ?_, ?_, rfl, ?_, ?_, ?_⟩
  · simp [BookingPage.handleBooking, he]
  · intro ht
    simp [BookingPage.handleBooking, BookingPage.render, he, hl, ht]
  · intro ht
    simp [BookingPage.handleBooking, BookingPage.render, he, hl, ht]
  · cases fetched <;> rfl
  · simp [BookingPage.handleBooking, he]
  · intro hn
    simp [BookingPage.render, he, hl, hn, JsVal.truthy]

/-- A page showing its event whose creation is answered with id `b1` shows the upload
form. -/
theorem booking_stage_after_creation_witness :
    BookingPage.render
      (BookingPage.handleBooking "http://localhost:8001/api"
        (BookingPage.fetchEventSettle
          (BookingPage.mount "http://localhost:8001/api" "/book/evt-1" true)
          (Except.ok ⟨"evt-1", "Morning Flow", "Gentle start", "2025-01-01", "07:00", 500,
            "online", 20, none⟩))
        (Except.ok (JsVal.str "b1"))) =
      BookingView.details
        ⟨"evt-1", "Morning Flow", "Gentle start", "2025-01-01", "07:00", 500, "online", 20,
          none⟩
        BookingStage.uploadForm :=
  (booking_stage_after_creation "http://localhost:8001/api" "/book/evt-1"
    (BookingPage.fetchEventSettle
      (BookingPage.mount "http://localhost:8001/api" "/book/evt-1" true)
      (Except.ok ⟨"evt-1", "Morning Flow", "Gentle start", "2025-01-01", "07:00", 500,
        "online", 20, none⟩))
    ⟨"evt-1", "Morning Flow", "Gentle start", "2025-01-01", "07:00", 500, "online", 20, none⟩
    (JsVal.str "b1") ⟨none⟩ (Except.error ⟨none⟩) rfl rfl).2.1 (by decide)

/-! ## Session manager: persistent storage -/

/-- The effect on `[token]` does not touch storage. -/
theorem AuthProvider.tokenEffect_localStorage (api : String) (s : AuthState) :
    (AuthProvider.tokenEffect api s).localStorage = s.localStorage := by
  unfold AuthProvider.tokenEffect
  cases s.token with
  | none => rfl
  | some token => by_cases h : token = "" <;> simp [h, AuthProvider.fetchUserInfoStart]

/-- The render after an update does not touch storage. -/
theorem AuthProvider.rerender_localStorage (api : String) (before after : AuthState) :
    (AuthProvider.rerender api before after).localStorage = after.localStorage := by
  unfold AuthProvider.rerender
  split
  · rfl
  · exact AuthProvider.tokenEffect_localStorage api after

/-- C20: the start-up and every session-manager operation, whatever its outcome, leave
every storage key other than `token` as it was (neither written nor removed); a
successful `login`, `register` or `googleLogin` leaves `token` holding the credential of
the response, and `logout` leaves `token` absent. -/
theorem storage_only_token (api : String) (s : AuthState) (ev : AuthEvent)
    (storage headers : Store) (k : String) (hk : k ≠ "token") :
    (AuthProvider.mount api storage headers).localStorage = storage ∧
    (AuthProvider.step api s ev).localStorage.getItem k = s.localStorage.getItem k ∧
    (∀ email password r,
      (AuthProvider.step api s
        (AuthEvent.login email password (Except.ok r))).localStorage.getItem "token" =
        some r.access_token) ∧
    (∀ name email password r,
      (AuthProvider.step api s
        (AuthEvent.register name email password (Except.ok r))).localStorage.getItem "token" =
        some r.access_token) ∧
    (∀ idToken r,
      (AuthProvider.step api s
        (AuthEvent.googleLogin (Except.ok idToken) (Except.ok r))).localStorage.getItem
          "token" = some r.access_token) ∧
    (AuthProvider.step api s AuthEvent.logout).localStorage.getItem "token" = none := by
  have hset : ∀ v, (s.localStorage.setItem "token" v).getItem k = s.localStorage.getItem k :=
    fun v => Store.getItem_setItem_of_ne s.localStorage "token" v k hk
  have hrem : (s.localStorage.removeItem "token").getItem k = s.localStorage.getItem k :=
    Store.getItem_removeItem_of_ne s.localStorage "token" k hk
  refine ⟨?_, ?_, ?_, ?_, ?_, ?_⟩
  · unfold AuthProvider.mount
    rw [AuthProvider.tokenEffect_localStorage]
  · cases ev with
    | lookupSettled result =>
      unfold AuthProvider.step
      by_cases h0 : s.inflight = 0
      · simp [h0]
      · simp only [h0, if_false]
        rw [AuthProvider.rerender_localStorage]
        cases result with
        | ok data => rfl
        | error e => exact hrem
    | login email password result =>
      unfold AuthProvider.step
      rw [AuthProvider.rerender_localStorage]
      cases result with
      | ok r => exact hset r.access_token
      | error e => rfl
    | register name email password result =>
      unfold AuthProvider.step
      rw [AuthProvider.rerender_localStorage]
      cases result with
      | ok r => exact hset r.access_token
      | error e => rfl
    | googleLogin popup result =>
      unfold AuthProvider.step
      rw [AuthProvider.rerender_localStorage]
      cases popup with
      | error p => rfl
      | ok idToken =>
        cases result with
        | ok r => exact hset r.access_token
        | error e => rfl
    | logout =>
      unfold AuthProvider.step
      rw [AuthProvider.rerender_localStorage]
      exact hrem
  · intro email password r
    unfold AuthProvider.step
    rw [AuthProvider.rerender_localStorage]
    exact Store.getItem_setItem_self s.localStorage "token" r.access_token
  · intro name email password r
    unfold AuthProvider.step
    rw [AuthProvider.rerender_localStorage]
    exact Store.getItem_setItem_self s.localStorage "token" r.access_token
  · intro idToken r
    unfold AuthProvider.step
    rw [AuthProvider.rerender_localStorage]
    exact Store.getItem_setItem_self s.localStorage "token" r.access_token
  · unfold AuthProvider.step
    rw [AuthProvider.rerender_localStorage]
    exact Store.getItem_removeItem_self s.localStorage "token"

/-- A browser that also holds a `theme` entry: a login and then a logout leave `theme`
as it was. -/
theorem storage_only_token_witness :
    (AuthProvider.step "http://localhost:8001/api"
      (AuthProvider.run "http://localhost:8001/api" [("theme", "dark")] []
        [AuthEvent.login "user@example.com" "user123"
          (Except.ok ⟨"jwt-1", ⟨"u1", "Demo User", "user@example.com", "user"⟩⟩)])
      AuthEvent.logout).localStorage.getItem "theme" =
    (AuthProvider.run "http://localhost:8001/api" [("theme", "dark")] []
      [AuthEvent.login "user@example.com" "user123"
        (Except.ok ⟨"jwt-1", ⟨"u1", "Demo User", "user@example.com", "user"⟩⟩)]).localStorage.getItem
      "theme" :=
  (storage_only_token "http://localhost:8001/api"
    (AuthProvider.run "http://localhost:8001/api" [("theme", "dark")] []
      [AuthEvent.login "user@example.com" "user123"
        (Except.ok ⟨"jwt-1", ⟨"u1", "Demo User", "user@example.com", "user"⟩⟩)])
    AuthEvent.logout [("theme", "dark")] [] "theme" (by decide)).2.1


/-! ## Context value -/

/-- C21 fails on the code: `AuthProvider` declares `login`, `register`, `googleLogin` and
`logout`, but the context value has the properties `login` and `logout` only, so a view
that reads `register` or `googleLogin` from `useAuth()` gets `undefined`. -/
theorem context_value_lacks_registration :
    "login" ∈ AuthProvider.declaredFunctions ∧
    "register" ∈ AuthProvider.declaredFunctions ∧
    "googleLogin" ∈ AuthProvider.declaredFunctions ∧
    "logout" ∈ AuthProvider.declaredFunctions ∧
    useAuthHas "login" = true ∧
    useAuthHas "logout" = true ∧
    useAuthHas "register" = false ∧
    useAuthHas "googleLogin" = false := by
  decide

/-! ## Admin tabs: fetch on mount -/

/-- C22 fails as stated: mounting the dashboard tab or the settings tab sends nothing.
After the page's own fetch, a switch to the events tab and back to the dashboard tab
leaves the page with its single `GET /admin/dashboard` and mounts the dashboard tab on
the snapshot fetched at the page's mount. -/
theorem dashboard_settings_tabs_counterexample :
    AdminTabContent.mountEffects "http://localhost:8001/api"
      ⟨"Vibrant Yoga", "smtp.example.com", "465", "info@example.com", "info@example.com",
        "SSL", "secret"⟩
      (AdminTabContent.AdminDashboardTab (some ⟨3, 1, 2, 1, []⟩)) = [] ∧
    AdminTabContent.mountEffects "http://localhost:8001/api"
      ⟨"Vibrant Yoga", "smtp.example.com", "465", "info@example.com", "info@example.com",
        "SSL", "secret"⟩
      AdminTabContent.AdminSettingsTab = [] ∧
    AdminPage.mounted
      (AdminPage.run "http://localhost:8001/api"
        [AdminPageEvent.fetchSettled (Except.ok ⟨3, 1, 2, 1, []⟩),
         AdminPageEvent.clickTab 1, AdminPageEvent.clickTab 0]) =
      [AdminTabContent.AdminDashboardTab (some ⟨3, 1, 2, 1, []⟩)] ∧
    (AdminPage.run "http://localhost:8001/api"
      [AdminPageEvent.fetchSettled (Except.ok ⟨3, 1, 2, 1, []⟩),
       AdminPageEvent.clickTab 1, AdminPageEvent.clickTab 0]).log =
      [Effect.request "GET" "http://localhost:8001/api/admin/dashboard" []] := by
  decide

/-- C22, amended: the events, bookings and users tabs each send their own fetch, and
nothing else, every time they are mounted; the dashboard tab and the settings tab send
nothing when mounted, and a click on a tab button adds nothing to the log of
`AdminPage` itself, whose only request is the `GET /admin/dashboard` of its own mount. -/
theorem admin_tabs_fetch_on_mount (api : String) (defaults : SmtpSettings)
    (data : Option DashboardData) (s : AdminPageState) (index : Nat) :
    AdminTabContent.mountEffects api defaults AdminTabContent.AdminEventsTab =
      [Effect.request "GET" (api ++ "/events") []] ∧
    AdminTabContent.mountEffects api defaults AdminTabContent.AdminBookingsTab =
      [Effect.request "GET" (api ++ "/bookings") []] ∧
    AdminTabContent.mountEffects api defaults AdminTabContent.AdminUsersTab =
      [Effect.request "GET" (api ++ "/users") []] ∧
    AdminTabContent.mountEffects api defaults (AdminTabContent.AdminDashboardTab data) = [] ∧
    AdminTabContent.mountEffects api defaults AdminTabContent.AdminSettingsTab = [] ∧
    (AdminPage.mount api).log = [Effect.request "GET" (api ++ "/admin/dashboard") []] ∧
    (AdminPage.step s (AdminPageEvent.clickTab index)).log = s.log ∧
    (AdminPage.step s (AdminPageEvent.clickTab index)).dashboardData = s.dashboardData := by
  refine ⟨rfl, rfl, rfl, rfl, rfl, rfl, ?_, ?_⟩
  · unfold AdminPage.step AdminPage.clickTab
    by_cases hl : s.loading = true
    · simp [hl]
    · cases ht : AdminPage.tabs.get? index <;> simp only [hl, ht] <;> rfl
  · unfold AdminPage.step AdminPage.clickTab
    by_cases hl : s.loading = true
    · simp [hl]
    · cases ht : AdminPage.tabs.get? index <;> simp only [hl, ht] <;> rfl

/-! ## Route guard: decision table -/

/-- C23: `ProtectedRoute` returns, for every context and either `adminOnly`, the loading
placeholder when loading; otherwise the redirect to `/login` when not authenticated;
otherwise the redirect to `/dashboard` when `adminOnly` and not admin; otherwise the
children. The result depends on the context through `loading`, `isAuthenticated` and
`isAdmin` only; the children are rendered exactly when not loading, authenticated and
(not `adminOnly` or admin). -/
theorem protectedRoute_decision_table {α : Type} (ctx ctx2 : AuthValue) (children : α)
    (adminOnly : Bool) :
    (ctx.loading = true →
      ProtectedRoute ctx children adminOnly = Rendered.loadingPlaceholder) ∧
    (ctx.loading = false → ctx.isAuthenticated = false →
      ProtectedRoute ctx children adminOnly = Rendered.navigate "/login" true) ∧
    (ctx.loading = false → ctx.isAuthenticated = true → adminOnly = true →
      ctx.isAdmin = false →
      ProtectedRoute ctx children adminOnly = Rendered.navigate "/dashboard" true) ∧
    (ctx.loading = false → ctx.isAuthenticated = true →
      (adminOnly = false ∨ ctx.isAdmin = true) →
      ProtectedRoute ctx children adminOnly = Rendered.view children) ∧
    (ProtectedRoute ctx children adminOnly = Rendered.view children ↔
      ctx.loading = false ∧ ctx.isAuthenticated = true ∧
        (adminOnly = false ∨ ctx.isAdmin = true)) ∧
    (ctx2.loading = ctx.loading → ctx2.isAuthenticated = ctx.isAuthenticated →
      ctx2.isAdmin = ctx.isAdmin →
      ProtectedRoute ctx2 children adminOnly = ProtectedRoute ctx children adminOnly) := by
  refine ⟨?_, ?_, ?_, ?_, ?_, ?_⟩
  · intro hl
    simp [ProtectedRoute, hl]
  · intro hl ha
    simp [ProtectedRoute, hl, ha]
  · intro hl ha ho hadm
    simp [ProtectedRoute, hl, ha, ho, hadm]
  · intro hl ha h
    rcases h with h | h <;> simp [ProtectedRoute, hl, ha, h]
  · cases hl : ctx.loading <;> cases ha : ctx.isAuthenticated <;> cases ho : adminOnly <;>
      cases hadm : ctx.isAdmin <;> simp [ProtectedRoute, hl, ha, ho, hadm]
  · intro h1 h2 h3
    simp [ProtectedRoute, h1, h2, h3]

/-- An admin whose session is loaded reaches the admin view; the same session while
loading gets the placeholder. -/
theorem protectedRoute_decision_table_witness :
    ProtectedRoute
      ⟨some ⟨"a1", "Admin", "admin@vibrantyoga.com", "admin"⟩, false, true, true⟩
      Page.AdminPage true = Rendered.view Page.AdminPage ∧
    ProtectedRoute
      ⟨some ⟨"a1", "Admin", "admin@vibrantyoga.com", "admin"⟩, true, true, true⟩
      Page.AdminPage true = Rendered.loadingPlaceholder :=
  ⟨(protectedRoute_decision_table
      ⟨some ⟨"a1", "Admin", "admin@vibrantyoga.com", "admin"⟩, false, true, true⟩
      ⟨none, false, false, false⟩ Page.AdminPage true).2.2.2.1 rfl rfl (Or.inr rfl),
   (protectedRoute_decision_table
      ⟨some ⟨"a1", "Admin", "admin@vibrantyoga.com", "admin"⟩, true, true, true⟩
      ⟨none, false, false, false⟩ Page.AdminPage true).1 rfl⟩


/-! ## Booking flow: when the proof upload is sent -/

/-- C24: `handlePaymentUpload` adds a request to the log exactly when `paymentProof`,
`utrNumber` and `bookingId` are all truthy. The request is then the one POST to
`/bookings/{bookingId}/payment-proof` carrying the file and `utr_number`, and the
booking id is neither `null` nor `undefined` nor the empty string; otherwise the
requests in the log are those that were there before. -/
theorem paymentUpload_request_iff (api : String) (s : BookingPageState)
    (result : Except AxiosError Unit) :
    (∀ file, s.paymentProof = some file → s.utrNumber ≠ "" → s.bookingId.truthy = true →
      (BookingPage.handlePaymentUpload api s result).log.filter Effect.isRequest =
        s.log.filter Effect.isRequest ++
          [Effect.request "POST"
            (api ++ "/bookings/" ++ s.bookingId.toStr ++ "/payment-proof")
            [("file", file.name), ("utr_number", s.utrNumber)]] ∧
      s.bookingId ≠ JsVal.null ∧ s.bookingId ≠ JsVal.undefined ∧
      s.bookingId ≠ JsVal.str "") ∧
    ((s.paymentProof = none ∨ s.utrNumber = "" ∨ s.bookingId.truthy = false) →
      (BookingPage.handlePaymentUpload api s result).log.filter Effect.isRequest =
        s.log.filter Effect.isRequest) ∧
    ((BookingPage.handlePaymentUpload api s result).log.filter Effect.isRequest ≠
        s.log.filter Effect.isRequest ↔
      s.paymentProof ≠ none ∧ s.utrNumber ≠ "" ∧ s.bookingId.truthy = true) := by
  have hyes : ∀ file, s.paymentProof = some file → s.utrNumber ≠ "" →
      s.bookingId.truthy = true →
      (BookingPage.handlePaymentUpload api s result).log.filter Effect.isRequest =
        s.log.filter Effect.isRequest ++
          [Effect.request "POST"
            (api ++ "/bookings/" ++ s.bookingId.toStr ++ "/payment-proof")
            [("file", file.name), ("utr_number", s.utrNumber)]] := by
    intro file hf hu hb
    cases result <;>
      simp [BookingPage.handlePaymentUpload, hf, hu, hb, List.filter_append, Effect.isRequest]
  have hno : (s.paymentProof = none ∨ s.utrNumber = "" ∨ s.bookingId.truthy = false) →
      (BookingPage.handlePaymentUpload api s result).log.filter Effect.isRequest =
        s.log.filter Effect.isRequest := by
    intro h
    unfold BookingPage.handlePaymentUpload
    cases hp : s.paymentProof with
    | none => simp [List.filter_append, Effect.isRequest]
    | some file =>
      rcases h with h | h | h
      · rw [hp] at h
        cases h
      · simp [h, List.filter_append, Effect.isRequest]
      · simp [h, List.filter_append, Effect.isRequest]
  refine ⟨?_, hno, ?_⟩
  · intro file hf hu hb
    refine ⟨hyes file hf hu hb, ?_, ?_, ?_⟩ <;>
      · intro hv
        rw [hv] at hb
        simp [JsVal.truthy] at hb
  · constructor
    · intro hne
      by_contra hcon
      apply hne
      apply hno
      by_cases hp : s.paymentProof = none
      · exact Or.inl hp
      · by_cases hu : s.utrNumber = ""
        · exact Or.inr (Or.inl hu)
        · right
          right
          cases hb : s.bookingId.truthy with
          | false => rfl
          | true => exact absurd ⟨hp, hu, hb⟩ hcon
    · rintro ⟨hp, hu, hb⟩
      cases hf : s.paymentProof with
      | none => exact absurd hf hp
      | some file =>
        rw [hyes file hf hu hb]
        simp

/-- A booking page with a file, the reference `UTR12345` and the booking id `b1` sends
the upload to `/bookings/b1/payment-proof`. -/
theorem paymentUpload_request_iff_witness :
    (BookingPage.handlePaymentUpload "http://localhost:8001/api"
      ⟨"evt-1", none, false, false, some ⟨"proof.png"⟩, "UTR12345", JsVal.str "b1", []⟩
      (Except.ok ())).log.filter Effect.isRequest =
      [Effect.request "POST" "http://localhost:8001/api/bookings/b1/payment-proof"
        [("file", "proof.png"), ("utr_number", "UTR12345")]] :=
  ((paymentUpload_request_iff "http://localhost:8001/api"
      ⟨"evt-1", none, false, false, some ⟨"proof.png"⟩, "UTR12345", JsVal.str "b1", []⟩
      (Except.ok ())).1 ⟨"proof.png"⟩ rfl (by decide) (by decide)).1

/-! ## Derived flags -/

/-- C25: for every user state, `isAdmin` implies `isAuthenticated`; so the context
value never has `isAdmin` without `isAuthenticated`, and `Navbar` shows the admin link
only to an authenticated session. -/
theorem isAdmin_implies_isAuthenticated (s : AuthState) :
    (AuthProvider.isAdmin s = true → AuthProvider.isAuthenticated s = true) ∧
    ¬ ((AuthProvider.value s).isAdmin = true ∧ (AuthProvider.value s).isAuthenticated = false) ∧
    ("/admin" ∈ Navbar.links (AuthProvider.value s) →
      (AuthProvider.value s).isAuthenticated = true) := by
  cases hu : s.user with
  | none =>
    simp [AuthProvider.isAdmin, AuthProvider.isAuthenticated, AuthProvider.value, Navbar.links, hu]
  | some u =>
    simp [AuthProvider.isAdmin, AuthProvider.isAuthenticated, AuthProvider.value, Navbar.links, hu]

/-- A logged-in admin is both admin and authenticated. -/
theorem isAdmin_implies_isAuthenticated_witness :
    AuthProvider.isAuthenticated
      (AuthProvider.run "http://localhost:8001/api" [] []
        [AuthEvent.login "admin@vibrantyoga.com" "admin123"
          (Except.ok ⟨"jwt-2", ⟨"a1", "Admin", "admin@vibrantyoga.com", "admin"⟩⟩)]) = true :=
  (isAdmin_implies_isAuthenticated
    (AuthProvider.run "http://localhost:8001/api" [] []
      [AuthEvent.login "admin@vibrantyoga.com" "admin123"
        (Except.ok ⟨"jwt-2", ⟨"a1", "Admin", "admin@vibrantyoga.com", "admin"⟩⟩)])).1
    (by decide)

/-! ## Create-event form: outcome and payload -/

/-- C26: when the creation succeeds and the QR upload that follows fails, `onSuccess` is
not called, so the tab keeps the form open and sends no new fetch, and the last effect
is an error toast. `onSuccess` is called, once, exactly when the creation succeeded and
the upload, if one was sent, succeeded. The form's loading flag ends `false` in every
case. -/
theorem createEvent_onSuccess_iff (api : String) (parseFloat parseInt : String → String)
    (tab : AdminEventsTabState) (s : CreateEventFormState)
    (created : Except AxiosError JsVal) (uploaded : Except AxiosError Unit) :
    (∀ id file error, created = Except.ok id → s.qrFile = some file →
      uploaded = Except.error error →
      (CreateEventForm.handleSubmit api parseFloat parseInt s created uploaded).onSuccessCalls =
        s.onSuccessCalls ∧
      (CreateEventForm.handleSubmit api parseFloat parseInt s created uploaded).log =
        s.log ++
          [Effect.request "POST" (api ++ "/events")
            (CreateEventForm.createBody parseFloat parseInt s.formData),
           Effect.request "POST" (api ++ "/events/" ++ id.toStr ++ "/qr-code")
            [("file", file.name)],
           Effect.toastError ((errorDetail error).or (JsVal.str "Failed to create event"))] ∧
      (AdminEventsTab.formSubmitted api parseFloat parseInt tab s created uploaded).1 = tab) ∧
    ((CreateEventForm.handleSubmit api parseFloat parseInt s created uploaded).onSuccessCalls =
        s.onSuccessCalls + 1 ↔
      (∃ id, created = Except.ok id) ∧
        (s.qrFile = none ∨ ∃ u, uploaded = Except.ok u)) ∧
    ((CreateEventForm.handleSubmit api parseFloat parseInt s created uploaded).onSuccessCalls =
        s.onSuccessCalls ∨
      (CreateEventForm.handleSubmit api parseFloat parseInt s created uploaded).onSuccessCalls =
        s.onSuccessCalls + 1) ∧
    (CreateEventForm.handleSubmit api parseFloat parseInt s created uploaded).loading =
      false := by
  refine ⟨?_, ?_, ?_, ?_⟩
  · intro id file error hc hq hu
    subst hc hu
    simp [AdminEventsTab.formSubmitted, CreateEventForm.handleSubmit, hq]
  · cases created with
    | error e => simp [CreateEventForm.handleSubmit]
    | ok id =>
      cases hq : s.qrFile with
      | none => simp [CreateEventForm.handleSubmit, hq]
      | some file => cases uploaded <;> simp [CreateEventForm.handleSubmit, hq]
  · cases created with
    | error e => simp [CreateEventForm.handleSubmit]
    | ok id =>
      cases hq : s.qrFile with
      | none => simp [CreateEventForm.handleSubmit, hq]
      | some file => cases uploaded <;> simp [CreateEventForm.handleSubmit, hq]
  · cases created with
    | error e => simp [CreateEventForm.handleSubmit]
    | ok id =>
      cases hq : s.qrFile with
      | none => simp [CreateEventForm.handleSubmit, hq]
      | some file => cases uploaded <;> simp [CreateEventForm.handleSubmit, hq]

/-- An open form with a QR file whose creation is answered with `e9` and whose upload is
rejected: the tab is as it was, form still open. -/
theorem createEvent_onSuccess_iff_witness :
    (AdminEventsTab.formSubmitted "http://localhost:8001/api" id id
      ⟨[], false, true, [Effect.request "GET" "http://localhost:8001/api/events" []]⟩
      ⟨⟨"Morning Flow", "Gentle start", "2025-01-01", "07:00", "500", "online", "20", ""⟩,
        some ⟨"qr.png"⟩, false, [], 0⟩
      (Except.ok (JsVal.str "e9")) (Except.error ⟨none⟩)).1 =
      ⟨[], false, true, [Effect.request "GET" "http://localhost:8001/api/events" []]⟩ :=
  ((createEvent_onSuccess_iff "http://localhost:8001/api" id id
      ⟨[], false, true, [Effect.request "GET" "http://localhost:8001/api/events" []]⟩
      ⟨⟨"Morning Flow", "Gentle start", "2025-01-01", "07:00", "500", "online", "20", ""⟩,
        some ⟨"qr.png"⟩, false, [], 0⟩
      (Except.ok (JsVal.str "e9")) (Except.error ⟨none⟩)).1
    (JsVal.str "e9") ⟨"qr.png"⟩ ⟨none⟩ rfl rfl rfl).2.2

/-- C27: for every form state the creation payload has `is_online` equal to `true`
exactly when `delivery_mode` is not `offline` (so for `online` and `hybrid`), and its
`session_link` is the one held in the form state: changing the delivery mode leaves the
link as typed, so a link typed before a switch to `offline` is sent although the field
is then hidden. -/
theorem createBody_is_online_and_link (parseFloat parseInt : String → String)
    (s : CreateEventFormState) (link mode : String) :
    (Store.getItem (CreateEventForm.createBody parseFloat parseInt s.formData) "is_online" =
        some "true" ↔ s.formData.delivery_mode ≠ "offline") ∧
    (Store.getItem (CreateEventForm.createBody parseFloat parseInt s.formData) "is_online" =
        some "false" ↔ s.formData.delivery_mode = "offline") ∧
    Store.getItem (CreateEventForm.createBody parseFloat parseInt s.formData) "session_link" =
      some s.formData.session_link ∧
    Store.getItem
      (CreateEventForm.createBody parseFloat parseInt
        (CreateEventForm.setDeliveryMode (CreateEventForm.setSessionLink s link)
          mode).formData) "session_link" = some link ∧
    CreateEventForm.sessionLinkShown
      (CreateEventForm.setDeliveryMode (CreateEventForm.setSessionLink s link) "offline") =
      false ∧
    Store.getItem
      (CreateEventForm.createBody parseFloat parseInt
        (CreateEventForm.setDeliveryMode (CreateEventForm.setSessionLink s link)
          "offline").formData) "is_online" = some "false" := by
  refine ⟨?_, ?_, ?_, ?_, ?_, ?_⟩
  · by_cases h : s.formData.delivery_mode = "offline" <;>
      simp [CreateEventForm.createBody, Store.getItem, JsVal.toStr, h]
  · by_cases h : s.formData.delivery_mode = "offline" <;>
      simp [CreateEventForm.createBody, Store.getItem, JsVal.toStr, h]
  · simp [CreateEventForm.createBody, Store.getItem]
  · simp [CreateEventForm.createBody, Store.getItem, CreateEventForm.setDeliveryMode,
      CreateEventForm.setSessionLink]
  · simp [CreateEventForm.sessionLinkShown, CreateEventForm.setDeliveryMode]
  · simp [CreateEventForm.createBody, Store.getItem, JsVal.toStr,
      CreateEventForm.setDeliveryMode]


/-! ## Status colours -/

/-- C28: the two `getStatusColor` functions and the inline conditional of
`AdminDashboardTab` are the same function of the status, and it is the mapping of the
specification: green classes for `approved`, red classes for `rejected`, yellow classes
for every other value, a missing status included. The badge of a recent-bookings entry
is that function of the booking's status. -/
theorem status_colour_mappings_agree (status : JsVal) (booking : Booking) :
    DashboardPage.getStatusColor status = statusColourSpec status ∧
    AdminBookingsTab.getStatusColor status = statusColourSpec status ∧
    AdminDashboardTab.badgeColor status = statusColourSpec status ∧
    DashboardPage.getStatusColor (JsVal.str "approved") = "bg-green-100 text-green-800" ∧
    DashboardPage.getStatusColor (JsVal.str "rejected") = "bg-red-100 text-red-800" ∧
    DashboardPage.getStatusColor (JsVal.str "pending") = "bg-yellow-100 text-yellow-800" ∧
    DashboardPage.getStatusColor JsVal.undefined = "bg-yellow-100 text-yellow-800" ∧
    (AdminDashboardTab.recentRow booking).badgeClass =
      AdminDashboardTab.badgeColor (JsVal.str booking.status) := by
  have h1 : DashboardPage.getStatusColor status = statusColourSpec status := by
    cases status with
    | str t =>
      by_cases ha : t = "approved"
      · simp [DashboardPage.getStatusColor, statusColourSpec, ha]
      · by_cases hr : t = "rejected" <;>
          simp [DashboardPage.getStatusColor, statusColourSpec, ha, hr]
    | _ => simp [DashboardPage.getStatusColor, statusColourSpec]
  refine ⟨h1, h1, h1, by decide, by decide, by decide, by decide, ?_⟩
  by_cases ha : booking.status = "approved"
  · simp [AdminDashboardTab.recentRow, AdminDashboardTab.badgeColor, ha]
  · by_cases hr : booking.status = "rejected" <;>
      simp [AdminDashboardTab.recentRow, AdminDashboardTab.badgeColor, ha, hr]

/-! ## User dashboard: counts -/

/-- The approved, the pending and the other bookings of a list add up to the list. -/
theorem DashboardPage.count_partition (l : List Booking) :
    (l.filter (fun b => b.status == "approved")).length +
      (l.filter (fun b => b.status == "pending")).length +
      (l.filter (fun b => !(b.status == "approved") && !(b.status == "pending"))).length =
      l.length := by
  induction l with
  | nil => rfl
  | cons b rest ih =>
    by_cases ha : b.status = "approved"
    · simp [List.filter_cons, ha]
      omega
    · by_cases hp : b.status = "pending"
      · simp [List.filter_cons, hp]
        omega
      · simp [List.filter_cons, ha, hp]
        omega

/-- C29: for every booking list held by the user dashboard, the approved count plus the
pending count is at most the total count, with equality if and only if every booking of
the list has status `approved` or `pending`; no booking is counted in both. -/
theorem dashboard_counts_sum (s : DashboardPageState) :
    (DashboardPage.stats s).approved + (DashboardPage.stats s).pending ≤
      (DashboardPage.stats s).total ∧
    ((DashboardPage.stats s).approved + (DashboardPage.stats s).pending =
        (DashboardPage.stats s).total ↔
      ∀ b ∈ s.bookings, b.status = "approved" ∨ b.status = "pending") ∧
    (∀ b ∈ s.bookings.filter (fun b => b.status == "approved"),
      b ∉ s.bookings.filter (fun b => b.status == "pending")) := by
  have hpart := DashboardPage.count_partition s.bookings
  refine ⟨?_, ?_, ?_⟩
  · simp only [DashboardPage.stats]
    omega
  · simp only [DashboardPage.stats]
    have hzero : (s.bookings.filter
        (fun b => !(b.status == "approved") && !(b.status == "pending"))).length = 0 ↔
        ∀ b ∈ s.bookings, b.status = "approved" ∨ b.status = "pending" := by
      rw [List.length_eq_zero, List.filter_eq_nil_iff]
      constructor
      · intro h b hb
        have := h b hb
        by_cases ha : b.status = "approved"
        · exact Or.inl ha
        · by_cases hp : b.status = "pending"
          · exact Or.inr hp
          · simp [ha, hp] at this
      · intro h b hb
        rcases h b hb with ha | hp
        · simp [ha]
        · simp [hp]
    rw [← hzero]
    omega
  · intro b hb hb2
    have h1 := (List.mem_filter.mp hb).2
    have h2 := (List.mem_filter.mp hb2).2
    simp at h1 h2
    rw [h1] at h2
    exact absurd h2 (by decide)

/-- A list of one approved, one pending and one rejected booking: 1 + 1 is below 3. -/
theorem dashboard_counts_sum_witness :
    ¬ ((DashboardPage.stats
        ⟨[⟨"b1", "u1", "single", "approved", some "UTR1", none, "2025-01-01"⟩,
          ⟨"b2", "u1", "single", "pending", none, none, "2025-01-02"⟩,
          ⟨"b3", "u1", "single", "rejected", some "UTR3", none, "2025-01-03"⟩],
          false, []⟩).approved +
      (DashboardPage.stats
        ⟨[⟨"b1", "u1", "single", "approved", some "UTR1", none, "2025-01-01"⟩,
          ⟨"b2", "u1", "single", "pending", none, none, "2025-01-02"⟩,
          ⟨"b3", "u1", "single", "rejected", some "UTR3", none, "2025-01-03"⟩],
          false, []⟩).pending =
      (DashboardPage.stats
        ⟨[⟨"b1", "u1", "single", "approved", some "UTR1", none, "2025-01-01"⟩,
          ⟨"b2", "u1", "single", "pending", none, none, "2025-01-02"⟩,
          ⟨"b3", "u1", "single", "rejected", some "UTR3", none, "2025-01-03"⟩],
          false, []⟩).total) :=
  fun h =>
    absurd
      ((dashboard_counts_sum
        ⟨[⟨"b1", "u1", "single", "approved", some "UTR1", none, "2025-01-01"⟩,
          ⟨"b2", "u1", "single", "pending", none, none, "2025-01-02"⟩,
          ⟨"b3", "u1", "single", "rejected", some "UTR3", none, "2025-01-03"⟩],
          false, []⟩).2.1.mp h
        ⟨"b3", "u1", "single", "rejected", some "UTR3", none, "2025-01-03"⟩ (by decide))
      (by decide)


/-! ## Session manager: the lookup that follows a new token -/

/-- The render after an update that stored a new, non-empty token runs the effect: the
header is set again and one lookup is sent. -/
theorem AuthProvider.rerender_new_token (api : String) (before after : AuthState)
    (t : String) (ht : after.token = some t) (hne : t ≠ "") (hch : before.token ≠ some t) :
    AuthProvider.rerender api before after =
      { after with
        headers := after.headers.setItem "Authorization" ("Bearer " ++ t)
        log := after.log ++ [Effect.request "GET" (api ++ "/users/me") []]
        inflight := after.inflight + 1 } := by
  have hdiff : ¬ some t = before.token := fun e => hch e.symm
  simp [AuthProvider.rerender, hdiff, AuthProvider.tokenEffect, ht, hne,
    AuthProvider.fetchUserInfoStart]

/-- A failing lookup, settled while one is in flight, ends in the logged-out state. -/
theorem AuthProvider.lookup_failure_clears (api : String) (s : AuthState) (error : AxiosError)
    (h : s.inflight ≠ 0) :
    (AuthProvider.step api s (AuthEvent.lookupSettled (Except.error error))).token = none ∧
    (AuthProvider.step api s (AuthEvent.lookupSettled (Except.error error))).user = none ∧
    (AuthProvider.step api s
      (AuthEvent.lookupSettled (Except.error error))).localStorage.getItem "token" = none ∧
    (AuthProvider.step api s
      (AuthEvent.lookupSettled (Except.error error))).headers.getItem "Authorization" = none ∧
    lookupCount api
      (AuthProvider.step api s (AuthEvent.lookupSettled (Except.error error))).log =
      lookupCount api s.log := by
  have h3 := Store.getItem_removeItem_self s.localStorage "token"
  have h4 := Store.getItem_removeItem_self s.headers "Authorization"
  cases htok : s.token with
  | none =>
    simp [AuthProvider.step, h, AuthProvider.rerender, AuthProvider.fetchUserInfoSettle,
      AuthProvider.logout, htok, h3, h4, lookupCount, List.filter_append]
  | some t =>
    simp [AuthProvider.step, h, AuthProvider.rerender, AuthProvider.fetchUserInfoSettle,
      AuthProvider.logout, AuthProvider.tokenEffect, htok, h3, h4, lookupCount,
      List.filter_append]

/-- C30 fails as stated: a `login` answered with an empty `access_token` returns `true`
and changes the token state from `null` to the empty string, yet the effect's test
`if (token)` fails on it, so the render that follows sends no current-user lookup. -/
theorem empty_token_no_lookup_counterexample :
    (AuthProvider.mount "http://localhost:8001/api" [] []).token = none ∧
    (AuthProvider.login "http://localhost:8001/api"
      (AuthProvider.mount "http://localhost:8001/api" [] [])
      "user@example.com" "user123"
      (Except.ok ⟨"", ⟨"u1", "Demo User", "user@example.com", "user"⟩⟩)).1 = true ∧
    (AuthProvider.step "http://localhost:8001/api"
      (AuthProvider.mount "http://localhost:8001/api" [] [])
      (AuthEvent.login "user@example.com" "user123"
        (Except.ok ⟨"", ⟨"u1", "Demo User", "user@example.com", "user"⟩⟩))).token =
      some "" ∧
    lookupCount "http://localhost:8001/api"
      (AuthProvider.step "http://localhost:8001/api"
        (AuthProvider.mount "http://localhost:8001/api" [] [])
        (AuthEvent.login "user@example.com" "user123"
          (Except.ok ⟨"", ⟨"u1", "Demo User", "user@example.com", "user"⟩⟩))).log = 0 ∧
    (AuthProvider.step "http://localhost:8001/api"
      (AuthProvider.mount "http://localhost:8001/api" [] [])
      (AuthEvent.login "user@example.com" "user123"
        (Except.ok ⟨"", ⟨"u1", "Demo User", "user@example.com", "user"⟩⟩))).inflight = 0 ∧
    (AuthProvider.step "http://localhost:8001/api"
      (AuthProvider.mount "http://localhost:8001/api" [] [])
      (AuthEvent.login "user@example.com" "user123"
        (Except.ok ⟨"", ⟨"u1", "Demo User", "user@example.com", "user"⟩⟩))).log.filter
        Effect.isRequest =
      [Effect.request "POST" "http://localhost:8001/api/auth/login"
        [("email", "user@example.com"), ("password", "user123")]] := by
  decide

/-- C30, amended: a successful `login`, `register` or `googleLogin` whose credential is
non-empty and differs from the token state returns `true`, and the render that follows
sends exactly one more current-user lookup, which is then in flight. If a lookup then
fails, `logout` runs: token and user are `null`, storage has no `token`, the default
headers have no `Authorization`, and no further lookup is sent. -/
theorem new_token_triggers_lookup (api : String) (s : AuthState)
    (name email password idToken : String) (r : AuthResponse) (error : AxiosError)
    (ev : AuthEvent)
    (hev : ev = AuthEvent.login email password (Except.ok r) ∨
      ev = AuthEvent.register name email password (Except.ok r) ∨
      ev = AuthEvent.googleLogin (Except.ok idToken) (Except.ok r))
    (hne : r.access_token ≠ "") (hch : s.token ≠ some r.access_token) :
    (AuthProvider.login api s email password (Except.ok r)).1 = true ∧
    (AuthProvider.register api s name email password (Except.ok r)).1 = true ∧
    (AuthProvider.googleLogin api s (Except.ok idToken) (Except.ok r)).1 = true ∧
    (AuthProvider.step api s ev).token = some r.access_token ∧
    (AuthProvider.step api s ev).user = some r.user ∧
    lookupCount api (AuthProvider.step api s ev).log = lookupCount api s.log + 1 ∧
    (AuthProvider.step api s ev).inflight = s.inflight + 1 ∧
    (AuthProvider.step api (AuthProvider.step api s ev)
      (AuthEvent.lookupSettled (Except.error error))).token = none ∧
    (AuthProvider.step api (AuthProvider.step api s ev)
      (AuthEvent.lookupSettled (Except.error error))).user = none ∧
    (AuthProvider.step api (AuthProvider.step api s ev)
      (AuthEvent.lookupSettled (Except.error error))).localStorage.getItem "token" = none ∧
    (AuthProvider.step api (AuthProvider.step api s ev)
      (AuthEvent.lookupSettled (Except.error error))).headers.getItem "Authorization" =
        none ∧
    lookupCount api
      (AuthProvider.step api (AuthProvider.step api s ev)
        (AuthEvent.lookupSettled (Except.error error))).log = lookupCount api s.log + 1 := by
  have hstep : (AuthProvider.step api s ev).token = some r.access_token ∧
      (AuthProvider.step api s ev).user = some r.user ∧
      lookupCount api (AuthProvider.step api s ev).log = lookupCount api s.log + 1 ∧
      (AuthProvider.step api s ev).inflight = s.inflight + 1 := by
    rcases hev with h | h | h
    · subst h
      simp only [AuthProvider.step]
      rw [AuthProvider.rerender_new_token api s _ r.access_token rfl hne hch]
      simp [AuthProvider.login, AuthProvider.storeSession, lookupCount, List.filter_append]
    · subst h
      simp only [AuthProvider.step]
      rw [AuthProvider.rerender_new_token api s _ r.access_token rfl hne hch]
      simp [AuthProvider.register, AuthProvider.storeSession, lookupCount, List.filter_append]
    · subst h
      simp only [AuthProvider.step]
      rw [AuthProvider.rerender_new_token api s _ r.access_token rfl hne hch]
      simp [AuthProvider.googleLogin, AuthProvider.storeSession, lookupCount,
        List.filter_append]
  obtain ⟨h1, h2, h3, h4⟩ := hstep
  have hfl : (AuthProvider.step api s ev).inflight ≠ 0 := by
    rw [h4]
    exact Nat.succ_ne_zero _
  obtain ⟨k1, k2, k3, k4, k5⟩ :=
    AuthProvider.lookup_failure_clears api (AuthProvider.step api s ev) error hfl
  exact ⟨rfl, rfl, rfl, h1, h2, h3, h4, k1, k2, k3, k4, by rw [k5, h3]⟩

/-- A login on a fresh page answered with the credential `jwt-1`: one lookup follows,
and when it is rejected the session is gone. -/
theorem new_token_triggers_lookup_witness :
    lookupCount "http://localhost:8001/api"
      (AuthProvider.step "http://localhost:8001/api"
        (AuthProvider.mount "http://localhost:8001/api" [] [])
        (AuthEvent.login "user@example.com" "user123"
          (Except.ok ⟨"jwt-1", ⟨"u1", "Demo User", "user@example.com", "user"⟩⟩))).log =
      0 + 1 ∧
    (AuthProvider.step "http://localhost:8001/api"
      (AuthProvider.step "http://localhost:8001/api"
        (AuthProvider.mount "http://localhost:8001/api" [] [])
        (AuthEvent.login "user@example.com" "user123"
          (Except.ok ⟨"jwt-1", ⟨"u1", "Demo User", "user@example.com", "user"⟩⟩)))
      (AuthEvent.lookupSettled (Except.error ⟨none⟩))).user = none :=
  ⟨(new_token_triggers_lookup "http://localhost:8001/api"
      (AuthProvider.mount "http://localhost:8001/api" [] [])
      "Demo User" "user@example.com" "user123" "firebase-id-token"
      ⟨"jwt-1", ⟨"u1", "Demo User", "user@example.com", "user"⟩⟩ ⟨none⟩
      (AuthEvent.login "user@example.com" "user123"
        (Except.ok ⟨"jwt-1", ⟨"u1", "Demo User", "user@example.com", "user"⟩⟩))
      (Or.inl rfl) (by decide) (by decide)).2.2.2.2.2.1,
   (new_token_triggers_lookup "http://localhost:8001/api"
      (AuthProvider.mount "http://localhost:8001/api" [] [])
      "Demo User" "user@example.com" "user123" "firebase-id-token"
      ⟨"jwt-1", ⟨"u1", "Demo User", "user@example.com", "user"⟩⟩ ⟨none⟩
      (AuthEvent.login "user@example.com" "user123"
        (Except.ok ⟨"jwt-1", ⟨"u1", "Demo User", "user@example.com", "user"⟩⟩))
      (Or.inl rfl) (by decide) (by decide)).2.2.2.2.2.2.2.2.1⟩

end VibrantYoga
